import Mathlib

/-!
Verification of the bluetooth-sensor-demo protocol codecs and device sessions.

The development shallowly embeds the repository's three vendor codecs and the
session state machines:

* `NoraxonInterface` (family 1): length-prefixed binary stream of half-float
  sub-frames, with the software half-precision polyfill.
* `QsenseInterface` (family 2): memory-mapped address/length/opcode protocol
  with a control-memory field parser and five streaming sub-modes.
* `YostSensor` (family 3): CRLF-delimited ASCII protocol with a chunk
  reassembly buffer.

Bytes are modelled as `Nat` (kept below 256 where the code constructs them);
JavaScript number arithmetic on decoded sensor values is idealized as exact
rational arithmetic (`ℚ`), and the IEEE special values that half/single float
decoding can produce are captured by the sum type `FloatVal`.  Asynchronous
session code is embedded as explicit state-passing steps that also return the
list of externally visible actions (writes, promise settlements) the original
statement sequence performs, in order.
-/

namespace SensorDemo

/-! ## Byte-level primitives (DataView reads, little-endian unless noted) -/

/-- Read one byte (JS `Uint8Array` indexing / `DataView.getUint8`). -/
def getUint8 (data : List Nat) (i : Nat) : Nat := data.getD i 0

/-- Little-endian 16-bit unsigned read (`DataView.getUint16(i, true)`). -/
def getUint16LE (data : List Nat) (i : Nat) : Nat :=
  getUint8 data i + 2 ^ 8 * getUint8 data (i + 1)

/-- Big-endian 16-bit unsigned read (`DataView.getUint16(i)`), the default
used by the family-1 half-float polyfill. -/
def getUint16BE (data : List Nat) (i : Nat) : Nat :=
  2 ^ 8 * getUint8 data i + getUint8 data (i + 1)

/-- Little-endian 32-bit unsigned read (`DataView.getUint32(i, true)`). -/
def getUint32LE (data : List Nat) (i : Nat) : Nat :=
  getUint8 data i + 2 ^ 8 * getUint8 data (i + 1) +
    2 ^ 16 * getUint8 data (i + 2) + 2 ^ 24 * getUint8 data (i + 3)

/-- Little-endian 64-bit unsigned read (`DataView.getBigUint64(i, true)`). -/
def getBigUint64LE (data : List Nat) (i : Nat) : Nat :=
  getUint8 data i + 2 ^ 8 * getUint8 data (i + 1) +
    2 ^ 16 * getUint8 data (i + 2) + 2 ^ 24 * getUint8 data (i + 3) +
    2 ^ 32 * getUint8 data (i + 4) + 2 ^ 40 * getUint8 data (i + 5) +
    2 ^ 48 * getUint8 data (i + 6) + 2 ^ 56 * getUint8 data (i + 7)

/-- Reinterpret a 16-bit unsigned value as two's-complement signed. -/
def toInt16 (u : Nat) : Int :=
  if u < 2 ^ 15 then (u : Int) else (u : Int) - 2 ^ 16

/-- Little-endian 16-bit signed read (`DataView.getInt16(i, true)`). -/
def getInt16LE (data : List Nat) (i : Nat) : Int := toInt16 (getUint16LE data i)

/-- Reinterpret a 32-bit unsigned value as two's-complement signed. -/
def toInt32 (u : Nat) : Int :=
  if u < 2 ^ 31 then (u : Int) else (u : Int) - 2 ^ 32

/-- Little-endian 32-bit signed read (`DataView.getInt32(i, true)`). -/
def getInt32LE (data : List Nat) (i : Nat) : Int := toInt32 (getUint32LE data i)

/-- Little-endian byte serialization of `v` into `n` bytes, as performed by
writing `v` into a JS `Uint32Array`/`Uint16Array` and viewing the bytes. -/
def leBytes (n v : Nat) : List Nat :=
  (List.range n).map fun i => v / 2 ^ (8 * i) % 2 ^ 8

/-! ## IEEE float values

Decoded half/single-precision floats are exact dyadic rationals, plus the
special values `±Infinity` and `NaN`; `FloatVal` captures all of them. -/

inductive FloatVal where
  | finite (q : ℚ)
  | inf (neg : Bool)
  | nan
  deriving DecidableEq, Repr, Inhabited

/-- The family-1 software half-precision polyfill
(`DataView.prototype.getFloat16` in `NoraxonInterface.ts`), acting on the raw
16 bits.  The bit operations mirror the source's `&` and `>>`. -/
def decodeFloat16Bits (bits : Nat) : FloatVal :=
  let s : ℕ := (bits &&& 0x8000) >>> 15
  let e : ℕ := (bits &&& 0x7c00) >>> 10
  let c : ℕ := bits &&& 0x03ff
  if e = 0 then
    .finite ((if s = 1 then -1 else 1) * (2 : ℚ) ^ (-14 : ℤ) * ((c : ℚ) / 2 ^ 10))
  else if e = 0x1f then
    if c ≠ 0 then .nan else .inf (s == 1)
  else
    .finite ((if s = 1 then -1 else 1) * (2 : ℚ) ^ ((e : ℤ) - 15) * (1 + (c : ℚ) / 2 ^ 10))

/-- The polyfill reads its 16 bits big-endian (`getUint16(offset)` with the
`littleEndian` argument defaulted to `false`). -/
def getFloat16 (data : List Nat) (offset : Nat) : FloatVal :=
  decodeFloat16Bits (getUint16BE data offset)

/-- IEEE-754 binary16 decoding, written from the specification's words: 5-bit
exponent, 10-bit mantissa, bias 15, subnormals scaled by `2^(1-15-10)`,
exponent 31 giving infinity/NaN.  Used to compare against the polyfill. -/
def ieeeBinary16 (bits : Nat) : FloatVal :=
  let s : ℕ := bits / 2 ^ 15 % 2
  let e : ℕ := bits / 2 ^ 10 % 2 ^ 5
  let m : ℕ := bits % 2 ^ 10
  let sgn : ℚ := if s = 1 then -1 else 1
  if e = 0 then .finite (sgn * (m : ℚ) * (2 : ℚ) ^ (-24 : ℤ))
  else if e = 31 then
    if m = 0 then .inf (s == 1) else .nan
  else .finite (sgn * (1 + (m : ℚ) / 2 ^ 10) * (2 : ℚ) ^ ((e : ℤ) - 15))

/-- IEEE-754 binary32 decoding; models the platform `DataView.getFloat32`
used by the family-2 Mixed/Quaternion/Quat+Mag parsers. -/
def decodeFloat32Bits (bits : Nat) : FloatVal :=
  let s : ℕ := bits / 2 ^ 31 % 2
  let e : ℕ := bits / 2 ^ 23 % 2 ^ 8
  let m : ℕ := bits % 2 ^ 23
  let sgn : ℚ := if s = 1 then -1 else 1
  if e = 0 then .finite (sgn * (m : ℚ) * (2 : ℚ) ^ (-149 : ℤ))
  else if e = 255 then
    if m = 0 then .inf (s == 1) else .nan
  else .finite (sgn * (1 + (m : ℚ) / 2 ^ 23) * (2 : ℚ) ^ ((e : ℤ) - 127))

/-- Little-endian 32-bit float read (`DataView.getFloat32(i, true)`). -/
def getFloat32LE (data : List Nat) (i : Nat) : FloatVal :=
  decodeFloat32Bits (getUint32LE data i)

/-! ## Unified sample model (`BaseInterface.ts`) -/

/-- A 3-vector of exact rationals (JS numbers idealized), `Xyz` in
`BaseInterface.ts`. -/
structure Xyz where
  x : ℚ
  y : ℚ
  z : ℚ
  deriving DecidableEq, Repr, Inhabited

/-- A quaternion of exact rationals, `Quat` in `BaseInterface.ts`. -/
structure Quat where
  w : ℚ
  x : ℚ
  y : ℚ
  z : ℚ
  deriving DecidableEq, Repr, Inhabited

/-- A 3-vector whose components come from float decoding and may be
infinite/NaN. -/
structure XyzF where
  x : FloatVal
  y : FloatVal
  z : FloatVal
  deriving DecidableEq, Repr, Inhabited

/-- A quaternion whose components come from float decoding. -/
structure QuatF where
  w : FloatVal
  x : FloatVal
  y : FloatVal
  z : FloatVal
  deriving DecidableEq, Repr, Inhabited

/-! ## Family 1: `NoraxonInterface.ts` -/

namespace NoraxonInterface

/-- Start-streaming command byte `BLE_MOTION_CMD_START`. -/
def BLE_MOTION_CMD_START : Nat := 0x01

/-- Stop-streaming command byte `BLE_MOTION_CMD_STOP`. -/
def BLE_MOTION_CMD_STOP : Nat := 0x02

/-- One decoded family-1 sample: the fields `parseData` pushes per frame. -/
structure NSample where
  time : ℚ
  accelerometer : XyzF
  quaternion : QuatF
  deriving DecidableEq, Repr, Inhabited

/-- The family-1 frame decoder `parseData` (`NoraxonInterface.ts`): a 4-byte
little-endian base-milliseconds timestamp, a sample-count byte, then that many
14-byte sub-frames of 7 big-endian half-floats
(`ax ay az q0 q1 q2 q3`); quaternion components map to `{x,y,z,w}` in order.
Truncated inputs are dropped (`undefined`, modelled as `none`). -/
def parseData (value : List Nat) : Option (List NSample) :=
  if value.length < 5 then none
  else
    let millis0 := getUint32LE value 0
    let nFrames := getUint8 value 4
    let frameSize := 14
    let expected := 5 + nFrames * frameSize
    if value.length < expected then none
    else
      some ((List.range nFrames).map fun i =>
        let offset := 5 + i * frameSize
        { time := ((millis0 : ℚ) + i * 10) / 1000
          accelerometer :=
            { x := getFloat16 value offset
              y := getFloat16 value (offset + 2)
              z := getFloat16 value (offset + 4) }
          quaternion :=
            { x := getFloat16 value (offset + 6)
              y := getFloat16 value (offset + 8)
              z := getFloat16 value (offset + 10)
              w := getFloat16 value (offset + 12) } })

end NoraxonInterface

/-! ## Family 2: `QsenseInterface.ts` -/

namespace QsenseInterface

/-- Packet opcodes (`QsenseInterface.Opcode`). -/
@[simp] def Opcode.Read : Nat := 1

/-- Data (write) opcode. -/
@[simp] def Opcode.Data : Nat := 2

/-- Abort opcode. -/
@[simp] def Opcode.Abort : Nat := 3

/-- Stream opcode. -/
@[simp] def Opcode.Stream : Nat := 4

/-- Byte offsets of the packet envelope fields
(`QsenseInterface.PacketFieldAddress`). -/
@[simp] def PacketFieldAddress.Opcode : Nat := 0

/-- Offset of the 4-byte little-endian address. -/
@[simp] def PacketFieldAddress.Address : Nat := 1

/-- Offset of the 2-byte little-endian length. -/
@[simp] def PacketFieldAddress.Length : Nat := 5

/-- Offset of the payload. -/
@[simp] def PacketFieldAddress.Data : Nat := 7

/-- Control-memory field addresses (`QsenseInterface.MemoryAddress`).  The
source also lists `UiAnimation = 0x2c`, which `parseControlMemory` has no
branch for. -/
@[simp] def MemoryAddress.WhoAmI : Nat := 0x00000000

/-- 64-bit device id. -/
@[simp] def MemoryAddress.Id : Nat := 0x00000004

/-- 6-byte MAC address. -/
@[simp] def MemoryAddress.MacAddress : Nat := 0x0000000c

/-- 4-byte firmware version. -/
@[simp] def MemoryAddress.Version : Nat := 0x00000014

/-- 1-byte battery level. -/
@[simp] def MemoryAddress.Battery : Nat := 0x00000018

/-- 1-byte motion level. -/
@[simp] def MemoryAddress.MotionLevel : Nat := 0x00000019

/-- 1-byte offset-compensated flag. -/
@[simp] def MemoryAddress.OffsetCompensated : Nat := 0x0000001a

/-- 1-byte magnetic-field-mapped flag. -/
@[simp] def MemoryAddress.MagneticFieldMapped : Nat := 0x0000001b

/-- 1-byte magnetic-field-progress value. -/
@[simp] def MemoryAddress.MagneticFieldProgress : Nat := 0x0000001c

/-- 1-byte connection interval. -/
@[simp] def MemoryAddress.ConnectionInterval : Nat := 0x0000001d

/-- 1-byte sync status. -/
@[simp] def MemoryAddress.SyncStatus : Nat := 0x0000001e

/-- 4-byte 100 Hz tick counter. -/
@[simp] def MemoryAddress.Ticks100Hz : Nat := 0x0000001f

/-- 4-byte unlock pin. -/
@[simp] def MemoryAddress.Pin : Nat := 0x00000020

/-- 4-byte time. -/
@[simp] def MemoryAddress.Time : Nat := 0x00000024

/-- 2-byte annotation field (source key `Annotation`; renamed `Annot` here). -/
@[simp] def MemoryAddress.Annot : Nat := 0x00000028

/-- 2-byte device state. -/
@[simp] def MemoryAddress.DeviceState : Nat := 0x0000002a

/-- UI-animation field address (source `UiAnimation`); present in the address
table but never decoded by `parseControlMemory`. -/
@[simp] def MemoryAddress.UiAnimation : Nat := 0x0000002c

/-- 12-byte device name. -/
@[simp] def MemoryAddress.DeviceName : Nat := 0x00000030

/-- 1-byte data mode. -/
@[simp] def MemoryAddress.DataMode : Nat := 0x0000003c

/-- 1-byte timesync configuration. -/
@[simp] def MemoryAddress.Timesync : Nat := 0x0000003d

/-- 1-byte algorithm selection. -/
@[simp] def MemoryAddress.AlgorithmSelection : Nat := 0x0000003f

/-- Streaming sub-modes (`QsenseInterface.DataMode`). -/
@[simp] def DataMode.Mixed : Nat := 0

/-- Raw mode. -/
@[simp] def DataMode.Raw : Nat := 1

/-- Quaternion-only mode. -/
@[simp] def DataMode.Quat : Nat := 2

/-- Optimized mode. -/
@[simp] def DataMode.Optimized : Nat := 3

/-- Quaternion+magnetometer mode. -/
@[simp] def DataMode.QuatMag : Nat := 4

/-- Control-memory base address. -/
@[simp] def CONTROL_MEMORY_ADDRESS : Nat := 0x00000000

/-- Control-memory size (64 bytes). -/
@[simp] def CONTROL_MEMORY_SIZE : Nat := 0x00000040

/-- Stream-memory fixed address. -/
@[simp] def STREAM_MEMORY_ADDRESS : Nat := 0x00000100

/-- Stream-memory fixed length (237 bytes). -/
@[simp] def STREAM_MEMORY_SIZE : Nat := 237

/-- Streaming-header length in bytes. -/
@[simp] def HEADER_LENGTH : Nat := 10

/-- `createReadPacket`: opcode 1, 4-byte LE address, 2-byte LE length. -/
def createReadPacket (address length : Nat) : List Nat :=
  Opcode.Read :: (leBytes 4 address ++ leBytes 2 length)

/-- `createDataPacket`: opcode 2, 4-byte LE address, 2-byte LE length
(= `data.length`), then the payload bytes. -/
def createDataPacket (address : Nat) (data : List Nat) : List Nat :=
  Opcode.Data :: (leBytes 4 address ++ leBytes 2 data.length ++ data)

/-- `createAbortPacket`: the single opcode byte 3. -/
def createAbortPacket : List Nat := [Opcode.Abort]

/-- `createStreamPacket`: opcode 4, stream-memory address and size. -/
def createStreamPacket : List Nat :=
  Opcode.Stream :: (leBytes 4 STREAM_MEMORY_ADDRESS ++ leBytes 2 STREAM_MEMORY_SIZE)

/-- Decoded timesync byte: the source reports `{isEnabled}` when the low
7 bits are zero, else `{isEnabled, isMaster, networkKey}`. -/
inductive TimesyncInfo where
  | disabled
  | enabled (isMaster : Bool) (networkKey : Nat)
  deriving DecidableEq, Repr

/-- The control-memory response record (`dataInfo` in `parseControlMemory`).
Every field is reported only when its address span is contained in the
response; `MacAddress` and `DeviceName` are modelled as the extracted byte
slices (the source renders the former as a colon-separated hex string and
passes the latter through `TextDecoder`, both determined by these bytes). -/
structure ControlPacket where
  whoAmI : Option Nat := none
  id : Option Nat := none
  macAddress : Option (List Nat) := none
  version : Option Nat := none
  battery : Option Nat := none
  motionLevel : Option Nat := none
  offsetCompensated : Option Nat := none
  magneticFieldMapped : Option Nat := none
  magneticFieldProgress : Option Nat := none
  connectionInterval : Option Nat := none
  syncStatus : Option Nat := none
  ticks100Hz : Option Nat := none
  pin : Option Nat := none
  time : Option Nat := none
  annot : Option Nat := none
  deviceState : Option Nat := none
  deviceName : Option (List Nat) := none
  dataMode : Option Nat := none
  timesync : Option TimesyncInfo := none
  algorithmSelection : Option String := none
  deriving DecidableEq, Repr, Inhabited

/-- `parseControlMemory data address length`: each known field is extracted
iff `address ≤ fieldAddress` and `fieldAddress + size ≤ address + length`
(the source's inclusive containment test), reading at relative offset
`fieldAddress - address`.  There is no branch for `UiAnimation`. -/
def parseControlMemory (data : List Nat) (address length : Nat) : ControlPacket :=
  { whoAmI :=
      if address ≤ MemoryAddress.WhoAmI ∧
          MemoryAddress.WhoAmI + 4 ≤ address + length then
        some (getUint32LE data (MemoryAddress.WhoAmI - address))
      else none
    id :=
      if address ≤ MemoryAddress.Id ∧
          MemoryAddress.Id + 8 ≤ address + length then
        some (getBigUint64LE data (MemoryAddress.Id - address))
      else none
    macAddress :=
      if address ≤ MemoryAddress.MacAddress ∧
          MemoryAddress.MacAddress + 6 ≤ address + length then
        some ((data.drop (MemoryAddress.MacAddress - address)).take 6)
      else none
    version :=
      if address ≤ MemoryAddress.Version ∧
          MemoryAddress.Version + 4 ≤ address + length then
        some (getUint32LE data (MemoryAddress.Version - address))
      else none
    battery :=
      if address ≤ MemoryAddress.Battery ∧
          MemoryAddress.Battery + 1 ≤ address + length then
        some (getUint8 data (MemoryAddress.Battery - address))
      else none
    motionLevel :=
      if address ≤ MemoryAddress.MotionLevel ∧
          MemoryAddress.MotionLevel + 1 ≤ address + length then
        some (getUint8 data (MemoryAddress.MotionLevel - address))
      else none
    offsetCompensated :=
      if address ≤ MemoryAddress.OffsetCompensated ∧
          MemoryAddress.OffsetCompensated + 1 ≤ address + length then
        some (getUint8 data (MemoryAddress.OffsetCompensated - address))
      else none
    magneticFieldMapped :=
      if address ≤ MemoryAddress.MagneticFieldMapped ∧
          MemoryAddress.MagneticFieldMapped + 1 ≤ address + length then
        some (getUint8 data (MemoryAddress.MagneticFieldMapped - address))
      else none
    magneticFieldProgress :=
      if address ≤ MemoryAddress.MagneticFieldProgress ∧
          MemoryAddress.MagneticFieldProgress + 1 ≤ address + length then
        some (getUint8 data (MemoryAddress.MagneticFieldProgress - address))
      else none
    connectionInterval :=
      if address ≤ MemoryAddress.ConnectionInterval ∧
          MemoryAddress.ConnectionInterval + 1 ≤ address + length then
        some (getUint8 data (MemoryAddress.ConnectionInterval - address))
      else none
    syncStatus :=
      if address ≤ MemoryAddress.SyncStatus ∧
          MemoryAddress.SyncStatus + 1 ≤ address + length then
        some (getUint8 data (MemoryAddress.SyncStatus - address))
      else none
    ticks100Hz :=
      if address ≤ MemoryAddress.Ticks100Hz ∧
          MemoryAddress.Ticks100Hz + 4 ≤ address + length then
        some (getUint32LE data (MemoryAddress.Ticks100Hz - address))
      else none
    pin :=
      if address ≤ MemoryAddress.Pin ∧
          MemoryAddress.Pin + 4 ≤ address + length then
        some (getUint32LE data (MemoryAddress.Pin - address))
      else none
    time :=
      if address ≤ MemoryAddress.Time ∧
          MemoryAddress.Time + 4 ≤ address + length then
        some (getUint32LE data (MemoryAddress.Time - address))
      else none
    annot :=
      if address ≤ MemoryAddress.Annot ∧
          MemoryAddress.Annot + 2 ≤ address + length then
        some (getUint16LE data (MemoryAddress.Annot - address))
      else none
    deviceState :=
      if address ≤ MemoryAddress.DeviceState ∧
          MemoryAddress.DeviceState + 2 ≤ address + length then
        some (getUint16LE data (MemoryAddress.DeviceState - address))
      else none
    deviceName :=
      if address ≤ MemoryAddress.DeviceName ∧
          MemoryAddress.DeviceName + 12 ≤ address + length then
        some ((data.drop (MemoryAddress.DeviceName - address)).take 12)
      else none
    dataMode :=
      if address ≤ MemoryAddress.DataMode ∧
          MemoryAddress.DataMode + 1 ≤ address + length then
        some (getUint8 data (MemoryAddress.DataMode - address))
      else none
    timesync :=
      if address ≤ MemoryAddress.Timesync ∧
          MemoryAddress.Timesync + 1 ≤ address + length then
        let timesyncByte := getUint8 data (MemoryAddress.Timesync - address)
        if timesyncByte &&& 0x7f = 0 then some .disabled
        else some (.enabled (decide (timesyncByte &&& 0x80 ≠ 0)) (timesyncByte &&& 0x7f))
      else none
    algorithmSelection :=
      if address ≤ MemoryAddress.AlgorithmSelection ∧
          MemoryAddress.AlgorithmSelection + 1 ≤ address + length then
        some (if getUint8 data (MemoryAddress.AlgorithmSelection - address) = 0
              then "9 DoF" else "6 DoF")
      else none }

/-- Recovers the written timesync byte from its decoded report: the low
7 bits are the network key and bit 7 the master flag (0 when disabled).  Used
to state bit-for-bit recovery for the timesync field. -/
def timesyncReencode : TimesyncInfo → Nat
  | .disabled => 0
  | .enabled isMaster networkKey => networkKey + (if isMaster then 0x80 else 0)

/-- Magnetometer scale factor `MAG_SCALE`. -/
def MAG_SCALE : ℚ := 0.0015

/-- Accelerometer scale-factor table `accScaleFactors`, indexed by the
accelerometer range field of header byte 9. -/
def accScaleFactors : List ℚ := [0.000061, 0.000488, 0.000122, 0.000244]

/-- Gyroscope scale-factor table `gyrScaleFactors`, indexed by the gyroscope
range field of header byte 9 (7 entries). -/
def gyrScaleFactors : List ℚ := [0.00875, 0.004375, 0.0175, 0, 0.035, 0, 0.07]

/-- `magOnly`: three little-endian int16s scaled by `MAG_SCALE`. -/
def magOnly (dataView : List Nat) (position : Nat) : Xyz :=
  { x := (getInt16LE dataView (position + 0) : ℚ) * MAG_SCALE
    y := (getInt16LE dataView (position + 2) : ℚ) * MAG_SCALE
    z := (getInt16LE dataView (position + 4) : ℚ) * MAG_SCALE }

/-- The parsed 9-DoF record returned by `raw9Dof`. -/
structure NineDof where
  acc : Xyz
  gyro : Xyz
  mag : Option Xyz
  deriving DecidableEq, Repr, Inhabited

/-- `raw9Dof`: three int16 accelerometer components scaled by `accScale`,
three int16 gyroscope components scaled by `gyrScale`, and optionally a
magnetometer triple at `position + 12`. -/
def raw9Dof (dataView : List Nat) (position : Nat) (accScale gyrScale : ℚ)
    (includeMag : Bool) : NineDof :=
  { acc :=
      { x := (getInt16LE dataView position : ℚ) * accScale
        y := (getInt16LE dataView (position + 2) : ℚ) * accScale
        z := (getInt16LE dataView (position + 4) : ℚ) * accScale }
    gyro :=
      { x := (getInt16LE dataView (position + 6) : ℚ) * gyrScale
        y := (getInt16LE dataView (position + 8) : ℚ) * gyrScale
        z := (getInt16LE dataView (position + 10) : ℚ) * gyrScale }
    mag := if includeMag then some (magOnly dataView (position + 12)) else none }

/-- Return shape of `parseMixedPacket`. -/
structure MixedPacket where
  quaternion : QuatF
  freeAcc : XyzF
  accelerometers : List Xyz
  gyroscopes : List Xyz
  magnetometers : List Xyz
  deriving DecidableEq, Repr

/-- Return shape of `parseRawPacket`. -/
structure RawPacket where
  accelerometers : List Xyz
  gyroscopes : List Xyz
  deriving DecidableEq, Repr

/-- Return shape of `parseQuatPacket`. -/
structure QuatPacket where
  quaternions : List QuatF
  deriving DecidableEq, Repr

/-- Return shape of `parseOptimizedPacket`. -/
structure OptimizedPacket where
  quaternions : List Quat
  accelerometers : List Xyz
  gyroscopes : List Xyz
  deriving DecidableEq, Repr, Inhabited

/-- Return shape of `parseQuatMagPacket`. -/
structure QuatMagPacket where
  quaternions : List QuatF
  magnetometers : List Xyz
  deriving DecidableEq, Repr

/-- The mode-dependent payload `parseStreamData` dispatches to. -/
inductive StreamPayload where
  | mixed (p : MixedPacket)
  | raw (p : RawPacket)
  | quat (p : QuatPacket)
  | optimized (p : OptimizedPacket)
  | quatMag (p : QuatMagPacket)
  deriving DecidableEq, Repr

/-- `parseMixedPacket`: a float32 quaternion and free-acceleration block read
from a view starting after the 10-byte header, then `buffering` 18-byte raw
9-DoF entries (with magnetometer) at offsets `28 + 18*i` of that view. -/
def parseMixedPacket (array : List Nat) (buffering : Nat)
    (accScale gyrScale : ℚ) : MixedPacket :=
  let dataView := array.drop 10
  let quaternion : QuatF :=
    { w := getFloat32LE dataView 0
      x := getFloat32LE dataView 4
      y := getFloat32LE dataView 8
      z := getFloat32LE dataView 12 }
  let freeAcc : XyzF :=
    { x := getFloat32LE dataView 16
      y := getFloat32LE dataView 20
      z := getFloat32LE dataView 24 }
  let rawData := (List.range buffering).map fun i =>
    raw9Dof dataView (28 + i * 18) accScale gyrScale true
  { quaternion := quaternion
    freeAcc := freeAcc
    accelerometers := rawData.map (·.acc)
    gyroscopes := rawData.map (·.gyro)
    magnetometers := rawData.map (·.mag.getD default) }

/-- `parseRawPacket`: `buffering` 18-byte raw entries read from offset 0 of
the whole array (the source passes the unsliced buffer). -/
def parseRawPacket (array : List Nat) (buffering : Nat)
    (accScale gyrScale : ℚ) : RawPacket :=
  let rawData := (List.range buffering).map fun i =>
    raw9Dof array (i * 18) accScale gyrScale false
  { accelerometers := rawData.map (·.acc)
    gyroscopes := rawData.map (·.gyro) }

/-- `parseQuatPacket`: `buffering` 16-byte float32 quaternions from offset 0
of the whole array. -/
def parseQuatPacket (array : List Nat) (buffering : Nat) : QuatPacket :=
  { quaternions := (List.range buffering).map fun i =>
      { w := getFloat32LE array (i * 16)
        x := getFloat32LE array (i * 16 + 4)
        y := getFloat32LE array (i * 16 + 8)
        z := getFloat32LE array (i * 16 + 12) } }

/-- `parseOptimizedPacket`: starting at the 10-byte header, `buffering`
8-byte quaternions with each little-endian int16 component divided by
`32767.0`; then a skip of `8 * (10 - buffering)` bytes over the unused
quaternion slots (computed in `ℤ` as in JS; the reading position is
`10 + 8*buffering + 8*(10-buffering) = 90` whenever `buffering ≤ 10`);
then `buffering` 12-byte raw 9-DoF entries without magnetometer. -/
def parseOptimizedPacket (array : List Nat) (buffering : Nat)
    (accScale gyrScale : ℚ) : OptimizedPacket :=
  let quaternions := (List.range buffering).map fun j =>
    let index := HEADER_LENGTH + j * 8
    ({ w := (getInt16LE array index : ℚ) / 32767
       x := (getInt16LE array (index + 2) : ℚ) / 32767
       y := (getInt16LE array (index + 4) : ℚ) / 32767
       z := (getInt16LE array (index + 6) : ℚ) / 32767 } : Quat)
  let rawStart : Nat :=
    (((HEADER_LENGTH : ℤ) + 8 * buffering) + 8 * (10 - (buffering : ℤ))).toNat
  let rawData := (List.range buffering).map fun j =>
    raw9Dof array (rawStart + j * 12) accScale gyrScale false
  { quaternions := quaternions
    accelerometers := rawData.map (·.acc)
    gyroscopes := rawData.map (·.gyro) }

/-- `parseQuatMagPacket`: `buffering` 28-byte entries (float32 quaternion
then magnetometer triple) from offset 0 of the whole array. -/
def parseQuatMagPacket (array : List Nat) (buffering : Nat) : QuatMagPacket :=
  { quaternions := (List.range buffering).map fun i =>
      { w := getFloat32LE array (i * 28)
        x := getFloat32LE array (i * 28 + 4)
        y := getFloat32LE array (i * 28 + 8)
        z := getFloat32LE array (i * 28 + 12) }
    magnetometers := (List.range buffering).map fun i =>
      magOnly array (i * 28 + 16) }

/-- The `UniversalPacket` a stream frame decodes to: millisecond timestamp
(`new Date(seconds * 1000 + milliseconds)`), battery percentage, and the
mode-dependent payload (`undefined`, i.e. `none`, on an unknown mode). -/
structure UniversalPacket where
  timestampMs : ℚ
  battery : ℚ
  data : Option StreamPayload
  deriving DecidableEq, Repr

/-- `parseStreamData`: decodes the 10-byte header — mode nibble and buffering
nibble of byte 0, int32 seconds at 1, int16 milliseconds at 5 scaled by 1.25,
battery from bits 3.. of byte 7, sync/range bitfields of byte 9 — selects the
scale factors by the 2-bit accelerometer range field `(b9 & 0x30) >> 4` and
the 3-bit gyroscope range field `(b9 & 0x0e) >> 1`, and dispatches on the
mode nibble.  (Out-of-table lookups are `undefined` (NaN) in JS; modelled by
the `getD _ 0` default, never exercised by the claims.) -/
def parseStreamData (data : List Nat) : UniversalPacket :=
  let mode := getUint8 data 0 &&& 0x0f
  let buffering := getUint8 data 0 >>> 4
  let seconds := getInt32LE data 1
  let milliseconds : ℚ := (getInt16LE data 5 : ℚ) * 1.25
  let battery : ℚ := ((getUint8 data 7 >>> 3 : ℕ) : ℚ) * 6.25
  let _annot := getUint8 data 8
  let _syncStatus := getUint8 data 9 &&& 0x01
  let accRangeIndex := (getUint8 data 9 &&& 0x30) >>> 4
  let gyroRangeIndex := (getUint8 data 9 &&& 0x0e) >>> 1
  let timestampMs : ℚ := (seconds : ℚ) * 1000 + milliseconds
  let accScale := accScaleFactors.getD accRangeIndex 0
  let gyrScale := gyrScaleFactors.getD gyroRangeIndex 0
  let packet : Option StreamPayload :=
    if mode = DataMode.Mixed then
      some (.mixed (parseMixedPacket data buffering accScale gyrScale))
    else if mode = DataMode.Raw then
      some (.raw (parseRawPacket data buffering accScale gyrScale))
    else if mode = DataMode.Quat then
      some (.quat (parseQuatPacket data buffering))
    else if mode = DataMode.Optimized then
      some (.optimized (parseOptimizedPacket data buffering accScale gyrScale))
    else if mode = DataMode.QuatMag then
      some (.quatMag (parseQuatMagPacket data buffering))
    else none
  { timestampMs := timestampMs, battery := battery, data := packet }

/-- The result of `parsePacket`: a control-memory record or a stream frame. -/
inductive QsensePacket where
  | control (cp : ControlPacket)
  | stream (p : UniversalPacket)
  deriving DecidableEq, Repr

/-- `parsePacket`: reads the envelope (opcode byte, 4-byte LE address, 2-byte
LE length), routes payloads with `address + length ≤ 64` to the control-memory
parser, payloads at the stream address with the stream size to the stream
parser, and throws (`Except.error`) otherwise. -/
def parsePacket (packet : List Nat) : Except String QsensePacket :=
  let _opcode := getUint8 packet PacketFieldAddress.Opcode
  let address := getUint32LE packet PacketFieldAddress.Address
  let length := getUint16LE packet PacketFieldAddress.Length
  if address + length ≤ CONTROL_MEMORY_SIZE then
    .ok (.control (parseControlMemory
      ((packet.drop PacketFieldAddress.Data).take length) address length))
  else if address = STREAM_MEMORY_ADDRESS ∧ length = STREAM_MEMORY_SIZE then
    .ok (.stream (parseStreamData
      ((packet.drop PacketFieldAddress.Data).take length)))
  else .error "Unknown packet type"

/-- Projects the Optimized-mode payload out of a parsed stream packet
(defaulting when the packet carries another mode). -/
def optimizedPayload (p : UniversalPacket) : OptimizedPacket :=
  match p.data with
  | some (.optimized q) => q
  | _ => default

end QsenseInterface

/-! ## Device sessions

Each session class is embedded as a state record plus step functions.  A step
returns the successor state together with the ordered list of externally
visible actions the source statement sequence performs: channel writes and
promise settlements.  `precondError` exists so that a session *could* fail
fast with a typed error; the embedded code never emits it, mirroring the
source. -/

inductive SessionEvent where
  | write (bytes : List Nat)
  | writeStr (s : String)
  | rejectCmd (reason : String)
  | resolveCmd
  | rejectStart
  | resolveStart
  | precondError (tag : String)
  deriving DecidableEq, Repr

namespace QsenseSensor

/-- State of a `QsenseSensor`: the observable mobx fields, the transport's
own connection state (`device.gatt.connected`), and whether the single
correlated-command slot / the start-streaming promise are pending. -/
structure Session where
  _connected : Bool
  gattConnected : Bool
  _streaming : Bool
  commandPending : Bool
  startPending : Bool
  deriving DecidableEq, Repr

/-- Getter `connected`: `_connected && !!device.gatt?.connected`. -/
def Session.connected (s : Session) : Bool := s._connected && s.gattConnected

/-- Getter `streaming`: `_streaming && connected`. -/
def Session.streaming (s : Session) : Bool := s._streaming && s.connected

/-- Getter `streamStarting`: `!!startStreamingPromise`. -/
def Session.streamStarting (s : Session) : Bool := s.startPending

/-- `handleDisconnect`: the link-loss handler only clears `_connected`; it
performs no promise settlement (the pending command slot and the
start-streaming promise are untouched). -/
def handleDisconnectStep (s : Session) : Session × List SessionEvent :=
  ({ s with _connected := false }, [])

/-- `getValue`: rejects any pending command with "Superseded", writes a read
packet, then installs the new pending command (the promise-slot assignment). -/
def getValueStep (s : Session) (address length : Nat) :
    Session × List SessionEvent :=
  let rejectEvents :=
    if s.commandPending then [SessionEvent.rejectCmd "Superseded"] else []
  ({ s with commandPending := true },
   rejectEvents ++ [SessionEvent.write (QsenseInterface.createReadPacket address length)])

/-- `setValue`: rejects any pending command with "Superseded", writes a data
packet, then installs the new pending command. -/
def setValueStep (s : Session) (address : Nat) (value : List Nat) :
    Session × List SessionEvent :=
  let rejectEvents :=
    if s.commandPending then [SessionEvent.rejectCmd "Superseded"] else []
  ({ s with commandPending := true },
   rejectEvents ++ [SessionEvent.write (QsenseInterface.createDataPacket address value)])

/-- `startStreaming`: writes the DataMode=Optimized data packet and the stream
packet, then installs the start-streaming promise.  There is no `connected`
precondition check in the source. -/
def startStreamingStep (s : Session) : Session × List SessionEvent :=
  ({ s with startPending := true },
   [SessionEvent.write (QsenseInterface.createDataPacket
      QsenseInterface.MemoryAddress.DataMode [QsenseInterface.DataMode.Optimized]),
    SessionEvent.write QsenseInterface.createStreamPacket])

end QsenseSensor

namespace YostSensor

/-- State of a `YostSensor` (same observable flags; the command slot also
stores the requested property name, irrelevant to the claims). -/
structure Session where
  _connected : Bool
  gattConnected : Bool
  _streaming : Bool
  commandPending : Bool
  startPending : Bool
  deriving DecidableEq, Repr

/-- Getter `connected`. -/
def Session.connected (s : Session) : Bool := s._connected && s.gattConnected

/-- Getter `streaming`. -/
def Session.streaming (s : Session) : Bool := s._streaming && s.connected

/-- `handleDisconnect`: only clears `_connected`; no settlement of the
pending command. -/
def handleDisconnectStep (s : Session) : Session × List SessionEvent :=
  ({ s with _connected := false }, [])

/-- `sendCommand`: rejects any pending command with "Superseded", writes the
ASCII command, then installs the new pending command. -/
def sendCommandStep (s : Session) (command _property : String) :
    Session × List SessionEvent :=
  let rejectEvents :=
    if s.commandPending then [SessionEvent.rejectCmd "Superseded"] else []
  ({ s with commandPending := true },
   rejectEvents ++ [SessionEvent.writeStr command])

/-- `startStreaming` up to its first suspension point: it immediately calls
`sendCommand("!stream_hz=100\n")` with no `connected` precondition check. -/
def startStreamingFirstStep (s : Session) : Session × List SessionEvent :=
  sendCommandStep s "!stream_hz=100\n" ""

end YostSensor

namespace NoraxonSensor

/-- State of a `NoraxonSensor` (no correlated-command slot; `startPending`
records whether the start-streaming promise is still unresolved). -/
structure Session where
  _connected : Bool
  gattConnected : Bool
  _streaming : Bool
  startPending : Bool
  deriving DecidableEq, Repr

/-- Getter `connected`. -/
def Session.connected (s : Session) : Bool := s._connected && s.gattConnected

/-- Getter `streaming`. -/
def Session.streaming (s : Session) : Bool := s._streaming && s.connected

/-- `handleDisconnect`: only clears `_connected`. -/
def handleDisconnectStep (s : Session) : Session × List SessionEvent :=
  ({ s with _connected := false }, [])

/-- `startStreaming`: writes the single start byte and installs the
start-streaming promise; `_streaming` is flipped only by the promise's
continuation, i.e. on resolution.  No `connected` check in the source. -/
def startStreamingStep (s : Session) : Session × List SessionEvent :=
  ({ s with startPending := true },
   [SessionEvent.write [NoraxonInterface.BLE_MOTION_CMD_START]])

/-- `handleData`: on every notification the handler first resolves the
start-streaming promise if one is pending (whose `.then` continuation sets
`_streaming := true`), then decodes the frame and delivers the sample batch
to the sink iff `parseData` succeeded. -/
def handleDataStep (s : Session) (value : List Nat) :
    Session × List (List NoraxonInterface.NSample) :=
  let s' := if s.startPending
    then { s with startPending := false, _streaming := true } else s
  match NoraxonInterface.parseData value with
  | some frames => (s', [frames])
  | none => (s', [])

end NoraxonSensor

/-! ## Family 3 reassembly (`YostSensor.handleData`)

The CRLF reassembly logic is embedded as a pure transition on the held-over
buffer.  Chunks and messages are `List Char`; on ASCII payloads the source's
`TextEncoder`/`TextDecoder` round-trips are the identity, so byte chunks and
character chunks coincide. -/

namespace YostSensor

/-- JS `str.split("\r\n")`: split on each non-overlapping left-to-right
occurrence of CRLF; always returns at least one (possibly empty) segment. -/
def splitCRLF : List Char → List (List Char)
  | [] => [[]]
  | '\r' :: '\n' :: rest => [] :: splitCRLF rest
  | c :: rest =>
    match splitCRLF rest with
    | [] => [[c]]
    | s :: ss => (c :: s) :: ss

/-- Whether a string contains no CRLF occurrence. -/
def crlfFree : List Char → Bool
  | [] => true
  | '\r' :: '\n' :: _ => false
  | _ :: rest => crlfFree rest

/-- `joinDataViews` applied to the held-over buffer and the incoming chunk
(no buffer: the chunk alone). -/
def joinBuffer (buffer : Option (List Char)) (chunk : List Char) : List Char :=
  buffer.getD [] ++ chunk

/-- One `handleData` invocation: join the buffer with the chunk, split on
CRLF, hold back the final (possibly empty) segment as the new buffer (cleared
when empty), and dispatch the complete segments in order. -/
def handleDataPure (buffer : Option (List Char)) (chunk : List Char) :
    Option (List Char) × List (List Char) :=
  let str := joinBuffer buffer chunk
  let messages := splitCRLF str
  let lastMessage := messages.getLastD []
  let newBuffer := if lastMessage ≠ [] then some lastMessage else none
  (newBuffer, messages.dropLast)

/-- Feed a sequence of chunks through `handleDataPure`, collecting all
dispatched messages in order. -/
def runHandleData (buffer : Option (List Char)) :
    List (List Char) → Option (List Char) × List (List Char)
  | [] => (buffer, [])
  | chunk :: chunks =>
    let step := handleDataPure buffer chunk
    let rest := runHandleData step.1 chunks
    (rest.1, step.2 ++ rest.2)

end YostSensor

/-- Buffer state corresponding to an undispatched pending text `p`. -/
def bufOf (p : List Char) : Option (List Char) :=
  if p = [] then none else some p

/-! ## Concrete inputs used by witnesses and counterexamples -/

/-- A minimal valid family-1 frame: base timestamp 0, one declared sub-frame,
14 zero bytes. -/
def c2frame : List Nat := [0, 0, 0, 0, 1] ++ List.replicate 14 0

/-- A valid family-1 frame whose single sub-frame starts with the big-endian
half-float `0x3C00` (= 1.0) in the first acceleration slot. -/
def c3frame : List Nat := [0, 0, 0, 0, 1, 0x3c, 0x00] ++ List.replicate 12 0

/-- A 237-byte family-2 stream frame in Optimized mode with buffering 3
(header byte `0x33`) and all other bytes zero. -/
def c4frame : List Nat := 0x33 :: List.replicate 236 0

/-- A 237-byte Optimized/buffering-3 stream frame whose header byte 9 is
`0x08` (gyroscope range index `(0x08 & 0x0e) >> 1 = 4`) and whose first raw
gyroscope x int16 (bytes 96–97) is 1. -/
def c4gframe : List Nat :=
  ((0x33 :: List.replicate 236 0).set 9 0x08).set 96 1

/-- A Qsense session that is connected and streaming with a pending
correlated command. -/
def c1session : QsenseSensor.Session :=
  { _connected := true, gattConnected := true, _streaming := true,
    commandPending := true, startPending := false }

/-- A connected Qsense session with a pending correlated command. -/
def c7qsession : QsenseSensor.Session :=
  { _connected := true, gattConnected := true, _streaming := false,
    commandPending := true, startPending := false }

/-- A connected Yost session with a pending correlated command. -/
def c7ysession : YostSensor.Session :=
  { _connected := true, gattConnected := true, _streaming := false,
    commandPending := true, startPending := false }

/-- A connected Noraxon session whose start-streaming promise is pending. -/
def c8session : NoraxonSensor.Session :=
  { _connected := true, gattConnected := true, _streaming := false,
    startPending := true }

/-- A truncated family-1 frame: declares 5 sub-frames but carries none. -/
def c8truncFrame : List Nat := [0, 0, 0, 0, 5]

/-- A fully disconnected Qsense session. -/
def c9qsession : QsenseSensor.Session :=
  { _connected := false, gattConnected := false, _streaming := false,
    commandPending := false, startPending := false }

/-- A fully disconnected Yost session. -/
def c9ysession : YostSensor.Session :=
  { _connected := false, gattConnected := false, _streaming := false,
    commandPending := false, startPending := false }

/-- A fully disconnected Noraxon session. -/
def c9nsession : NoraxonSensor.Session :=
  { _connected := false, gattConnected := false, _streaming := false,
    startPending := false }

/-! ### Bridging lemmas between JS bit operations and arithmetic -/

/-- Masking with a `k`-bit field at bit offset `n` and shifting down is the
same as dividing by `2^n` and keeping `k` bits. -/
theorem and_mask_shr (x k n : Nat) :
    (x &&& ((2 ^ k - 1) <<< n)) >>> n = x / 2 ^ n % 2 ^ k := by
  apply Nat.eq_of_testBit_eq
  intro i
  rw [Nat.testBit_shiftRight, Nat.testBit_and, Nat.testBit_shiftLeft,
    Nat.testBit_two_pow_sub_one, ← Nat.shiftRight_eq_div_pow,
    Nat.testBit_mod_two_pow, Nat.testBit_shiftRight]
  by_cases h : i < k <;> simp [h, Nat.add_sub_cancel_left, Bool.and_comm]

/-- Masking with `2^k - 1` keeps the low `k` bits. -/
theorem and_mask (x k : Nat) : x &&& (2 ^ k - 1) = x % 2 ^ k := by
  have h := and_mask_shr x k 0
  simp only [Nat.shiftLeft_zero, Nat.shiftRight_zero, pow_zero, Nat.div_one] at h
  exact h

/-- Recover a value below `2^32` from its 4-byte little-endian serialization. -/
theorem getUint32LE_leBytes (v : Nat) (h : v < 2 ^ 32) :
    getUint32LE (leBytes 4 v) 0 = v := by
  simp only [leBytes, getUint32LE, getUint8, List.range_succ, List.range_zero,
    List.map_append, List.map_cons, List.map_nil, List.nil_append]
  simp only [List.getD, List.get?_eq_getElem?]
  norm_num
  omega

/-- Recover a value below `2^16` from its 2-byte little-endian serialization. -/
theorem getUint16LE_leBytes (v : Nat) (h : v < 2 ^ 16) :
    getUint16LE (leBytes 2 v) 0 = v := by
  simp only [leBytes, getUint16LE, getUint8, List.range_succ, List.range_zero,
    List.map_append, List.map_cons, List.map_nil, List.nil_append]
  simp only [List.getD, List.get?_eq_getElem?]
  norm_num
  omega

/-- Recover a value below `2^64` from its 8-byte little-endian serialization. -/
theorem getBigUint64LE_leBytes (v : Nat) (h : v < 2 ^ 64) :
    getBigUint64LE (leBytes 8 v) 0 = v := by
  simp only [leBytes, getBigUint64LE, getUint8, List.range_succ, List.range_zero,
    List.map_append, List.map_cons, List.map_nil, List.nil_append]
  simp only [List.getD, List.get?_eq_getElem?]
  norm_num
  omega

/-! ### Round-trip helpers for the family-2 control-memory fields -/

/-- The length of an `n`-byte little-endian serialization. -/
@[simp] theorem leBytes_length (n v : Nat) : (leBytes n v).length = n := by
  simp [leBytes]

/-- An optional value guarded by a containment test is present iff the test
holds. -/
theorem isSome_ite_some {α : Type} {c : Prop} [Decidable c] {x : α} :
    (if c then some x else none).isSome ↔ c := by
  by_cases h : c <;> simp [h]

/-- Variant for the timesync field's two-way inner branch. -/
theorem isSome_ite_ite {α : Type} {c c2 : Prop} [Decidable c] [Decidable c2]
    {x y : α} :
    (if c then (if c2 then some x else some y) else none).isSome ↔ c := by
  by_cases h : c <;> by_cases h2 : c2 <;> simp [h, h2]

/-- A `createDataPacket` write parses as a control-memory response covering
exactly the written span. -/
theorem parsePacket_createDataPacket (address : Nat) (data : List Nat)
    (h : address + data.length ≤ 64) :
    QsenseInterface.parsePacket (QsenseInterface.createDataPacket address data) =
      .ok (.control (QsenseInterface.parseControlMemory data address data.length)) := by
  have hle4 : leBytes 4 address =
      [address % 256, address / 256 % 256, address / 65536 % 256,
        address / 16777216 % 256] := by
    simp [leBytes, List.range_succ]
  have hle2 : leBytes 2 data.length =
      [data.length % 256, data.length / 256 % 256] := by
    simp [leBytes, List.range_succ]
  have hpkt : QsenseInterface.createDataPacket address data =
      2 :: address % 256 :: address / 256 % 256 :: address / 65536 % 256 ::
        address / 16777216 % 256 :: data.length % 256 ::
        data.length / 256 % 256 :: data := by
    simp [QsenseInterface.createDataPacket, hle4, hle2]
  have haddr : getUint32LE (QsenseInterface.createDataPacket address data) 1 = address := by
    rw [hpkt]
    show address % 256 + 2 ^ 8 * (address / 256 % 256) +
      2 ^ 16 * (address / 65536 % 256) + 2 ^ 24 * (address / 16777216 % 256) = address
    omega
  have hlen : getUint16LE (QsenseInterface.createDataPacket address data) 5 = data.length := by
    rw [hpkt]
    show data.length % 256 + 2 ^ 8 * (data.length / 256 % 256) = data.length
    omega
  have hdata : ((QsenseInterface.createDataPacket address data).drop 7).take data.length
      = data := by
    rw [hpkt]
    show data.take data.length = data
    exact List.take_length data
  simp only [QsenseInterface.parsePacket, QsenseInterface.PacketFieldAddress.Address,
    QsenseInterface.PacketFieldAddress.Length, QsenseInterface.PacketFieldAddress.Data,
    QsenseInterface.CONTROL_MEMORY_SIZE, haddr, hlen, hdata]
  rw [if_pos h]

/-- Field round-trip at `WhoAmI`. -/
theorem qsField_whoAmI (v : Nat) (hv : v < 2 ^ 32) :
    QsenseInterface.parseControlMemory (leBytes 4 v) QsenseInterface.MemoryAddress.WhoAmI 4 =
      { whoAmI := some v } := by
  simp [QsenseInterface.parseControlMemory, getUint32LE_leBytes v hv]

/-- Field round-trip at `Id`. -/
theorem qsField_id (v : Nat) (hv : v < 2 ^ 64) :
    QsenseInterface.parseControlMemory (leBytes 8 v) QsenseInterface.MemoryAddress.Id 8 =
      { id := some v } := by
  simp [QsenseInterface.parseControlMemory, getBigUint64LE_leBytes v hv]

/-- Field round-trip at `MacAddress` (the source renders these bytes as a
hex string). -/
theorem qsField_macAddress (bs : List Nat) (hbs : bs.length = 6) :
    QsenseInterface.parseControlMemory bs QsenseInterface.MemoryAddress.MacAddress 6 =
      { macAddress := some bs } := by
  have htake : bs.take 6 = bs := by rw [← hbs, List.take_length]
  simp [QsenseInterface.parseControlMemory, htake]

/-- Field round-trip at `Version`. -/
theorem qsField_version (v : Nat) (hv : v < 2 ^ 32) :
    QsenseInterface.parseControlMemory (leBytes 4 v) QsenseInterface.MemoryAddress.Version 4 =
      { version := some v } := by
  simp [QsenseInterface.parseControlMemory, getUint32LE_leBytes v hv]

/-- Field round-trip at `Battery`. -/
theorem qsField_battery (v : Nat) :
    QsenseInterface.parseControlMemory [v] QsenseInterface.MemoryAddress.Battery 1 =
      { battery := some v } := by
  simp [QsenseInterface.parseControlMemory, getUint8]

/-- Field round-trip at `MotionLevel`. -/
theorem qsField_motionLevel (v : Nat) :
    QsenseInterface.parseControlMemory [v] QsenseInterface.MemoryAddress.MotionLevel 1 =
      { motionLevel := some v } := by
  simp [QsenseInterface.parseControlMemory, getUint8]

/-- Field round-trip at `OffsetCompensated`. -/
theorem qsField_offsetCompensated (v : Nat) :
    QsenseInterface.parseControlMemory [v] QsenseInterface.MemoryAddress.OffsetCompensated 1 =
      { offsetCompensated := some v } := by
  simp [QsenseInterface.parseControlMemory, getUint8]

/-- Field round-trip at `MagneticFieldMapped`. -/
theorem qsField_magneticFieldMapped (v : Nat) :
    QsenseInterface.parseControlMemory [v] QsenseInterface.MemoryAddress.MagneticFieldMapped 1 =
      { magneticFieldMapped := some v } := by
  simp [QsenseInterface.parseControlMemory, getUint8]

/-- Field round-trip at `MagneticFieldProgress`. -/
theorem qsField_magneticFieldProgress (v : Nat) :
    QsenseInterface.parseControlMemory [v] QsenseInterface.MemoryAddress.MagneticFieldProgress 1 =
      { magneticFieldProgress := some v } := by
  simp [QsenseInterface.parseControlMemory, getUint8]

/-- Field round-trip at `ConnectionInterval`. -/
theorem qsField_connectionInterval (v : Nat) :
    QsenseInterface.parseControlMemory [v] QsenseInterface.MemoryAddress.ConnectionInterval 1 =
      { connectionInterval := some v } := by
  simp [QsenseInterface.parseControlMemory, getUint8]

/-- Field round-trip at `SyncStatus`. -/
theorem qsField_syncStatus (v : Nat) :
    QsenseInterface.parseControlMemory [v] QsenseInterface.MemoryAddress.SyncStatus 1 =
      { syncStatus := some v } := by
  simp [QsenseInterface.parseControlMemory, getUint8]

/-- Field round-trip at `Ticks100Hz`. -/
theorem qsField_ticks100Hz (v : Nat) (hv : v < 2 ^ 32) :
    QsenseInterface.parseControlMemory (leBytes 4 v) QsenseInterface.MemoryAddress.Ticks100Hz 4 =
      { ticks100Hz := some v } := by
  simp [QsenseInterface.parseControlMemory, getUint32LE_leBytes v hv]

/-- Field round-trip at `Pin`. -/
theorem qsField_pin (v : Nat) (hv : v < 2 ^ 32) :
    QsenseInterface.parseControlMemory (leBytes 4 v) QsenseInterface.MemoryAddress.Pin 4 =
      { pin := some v } := by
  simp [QsenseInterface.parseControlMemory, getUint32LE_leBytes v hv]

/-- Field round-trip at `Time`. -/
theorem qsField_time (v : Nat) (hv : v < 2 ^ 32) :
    QsenseInterface.parseControlMemory (leBytes 4 v) QsenseInterface.MemoryAddress.Time 4 =
      { time := some v } := by
  simp [QsenseInterface.parseControlMemory, getUint32LE_leBytes v hv]

/-- Field round-trip at `Annot`. -/
theorem qsField_annot (v : Nat) (hv : v < 2 ^ 16) :
    QsenseInterface.parseControlMemory (leBytes 2 v) QsenseInterface.MemoryAddress.Annot 2 =
      { annot := some v } := by
  simp [QsenseInterface.parseControlMemory, getUint16LE_leBytes v hv]

/-- Field round-trip at `DeviceState`. -/
theorem qsField_deviceState (v : Nat) (hv : v < 2 ^ 16) :
    QsenseInterface.parseControlMemory (leBytes 2 v) QsenseInterface.MemoryAddress.DeviceState 2 =
      { deviceState := some v } := by
  simp [QsenseInterface.parseControlMemory, getUint16LE_leBytes v hv]

/-- Field round-trip at `DeviceName` (the source passes these bytes through
`TextDecoder`). -/
theorem qsField_deviceName (bs : List Nat) (hbs : bs.length = 12) :
    QsenseInterface.parseControlMemory bs QsenseInterface.MemoryAddress.DeviceName 12 =
      { deviceName := some bs } := by
  have htake : bs.take 12 = bs := by rw [← hbs, List.take_length]
  simp [QsenseInterface.parseControlMemory, htake]

/-- Field round-trip at `DataMode`. -/
theorem qsField_dataMode (v : Nat) :
    QsenseInterface.parseControlMemory [v] QsenseInterface.MemoryAddress.DataMode 1 =
      { dataMode := some v } := by
  simp [QsenseInterface.parseControlMemory, getUint8]

/-- Field round-trip at `Timesync`: every byte other than `0x80` is
recovered exactly by re-encoding the decoded report. -/
theorem qsField_timesync (v : Nat) (hv : v < 256) (hv8 : v ≠ 128) :
    ∃ ti, QsenseInterface.parseControlMemory [v] QsenseInterface.MemoryAddress.Timesync 1 =
      { timesync := some ti } ∧ QsenseInterface.timesyncReencode ti = v := by
  have h7 : v &&& 127 = v % 128 := by
    have h := and_mask v 7
    norm_num at h
    exact h
  have h8 : v &&& 128 = (v.testBit 7).toNat * 128 := by
    have h := Nat.and_two_pow v 7
    norm_num at h
    exact h
  rw [Nat.testBit_to_div_mod] at h8
  by_cases hz : v % 128 = 0
  · have hv0 : v = 0 := by omega
    subst hv0
    exact ⟨.disabled, by simp [QsenseInterface.parseControlMemory, getUint8], rfl⟩
  · refine ⟨.enabled (decide (v &&& 128 ≠ 0)) (v &&& 127), ?_, ?_⟩
    · simp [QsenseInterface.parseControlMemory, getUint8, h7, hz]
    · by_cases hb : v / 128 % 2 = 1 <;>
        (simp [QsenseInterface.timesyncReencode, h7, h8, hb]; omega)

/-- Field round-trip at `AlgorithmSelection`: values 0 and 1 are recovered
from the reported algorithm tag. -/
theorem qsField_algorithmSelection (v : Nat) (hv : v < 2) :
    QsenseInterface.parseControlMemory [v] QsenseInterface.MemoryAddress.AlgorithmSelection 1 =
      { algorithmSelection := some (if v = 0 then "9 DoF" else "6 DoF") } ∧
    (if v = 0 then 0 else 1) = v := by
  constructor
  · simp [QsenseInterface.parseControlMemory, getUint8]
  · by_cases h : v = 0
    · simp [h]
    · simp [h]
      omega

/-- A one-byte write at `UiAnimation` is reported with no field. -/
theorem qsField_uiAnimation_one (v : Nat) :
    QsenseInterface.parseControlMemory [v] QsenseInterface.MemoryAddress.UiAnimation 1 = {} := by
  simp [QsenseInterface.parseControlMemory]

/-- A two-byte write at `UiAnimation` is reported with no field. -/
theorem qsField_uiAnimation_two (a b : Nat) :
    QsenseInterface.parseControlMemory [a, b] QsenseInterface.MemoryAddress.UiAnimation 2 = {} := by
  simp [QsenseInterface.parseControlMemory]

/-- A four-byte write at `UiAnimation` is reported with no field. -/
theorem qsField_uiAnimation_four (a b c d : Nat) :
    QsenseInterface.parseControlMemory [a, b, c, d] QsenseInterface.MemoryAddress.UiAnimation 4 = {} := by
  simp [QsenseInterface.parseControlMemory]

/-! ## Claim theorems -/

/-- Evaluation: the polyfill decodes `0x3C00` to 1. -/
theorem decodeFloat16Bits_x3C00 : decodeFloat16Bits 0x3C00 = .finite 1 := by
  have h1 : (15360 &&& 31744) >>> 10 = 15 := by decide
  have h2 : (15360 &&& 32768) >>> 15 = 0 := by decide
  have h3 : 15360 &&& 1023 = 0 := by decide
  norm_num [decodeFloat16Bits, h1, h2, h3]

/-- Evaluation: the polyfill decodes zero bits to 0. -/
theorem decodeFloat16Bits_zero : decodeFloat16Bits 0 = .finite 0 := by
  norm_num [decodeFloat16Bits]

/-- Evaluation: the polyfill decodes `0x7C00` to positive infinity. -/
theorem decodeFloat16Bits_x7C00 : decodeFloat16Bits 0x7C00 = .inf false := by
  have h1 : (31744 &&& 31744) >>> 10 = 31 := by decide
  have h2 : 31744 >>> 10 = 31 := by decide
  have h3 : (31744 &&& 32768) >>> 15 = 0 := by decide
  have h4 : 31744 &&& 1023 = 0 := by decide
  norm_num [decodeFloat16Bits, h1, h2, h3, h4]

/-- Evaluation: the polyfill decodes `0x7C01` to NaN. -/
theorem decodeFloat16Bits_x7C01 : decodeFloat16Bits 0x7C01 = .nan := by
  have h1 : (31745 &&& 31744) >>> 10 = 31 := by decide
  have h2 : 31745 &&& 1023 = 1 := by decide
  norm_num [decodeFloat16Bits, h1, h2]

/-- C10: the software half-precision fallback decoder reproduces IEEE-754
binary16 semantics — 5-bit exponent, 10-bit mantissa, bias 15, with exact
subnormal and infinity/NaN handling — and in particular
`decode(0x3C00) = 1.0`, `decode(0x0000) = 0.0`, `decode(0x7C00) = +Infinity`
and `decode(0x7C01) = NaN`. -/
theorem c10_half_float_ieee :
    (∀ bits : Nat, decodeFloat16Bits bits = ieeeBinary16 bits) ∧
    decodeFloat16Bits 0x3C00 = .finite 1 ∧
    decodeFloat16Bits 0x0000 = .finite 0 ∧
    decodeFloat16Bits 0x7C00 = .inf false ∧
    decodeFloat16Bits 0x7C01 = .nan := by
  refine ⟨?_, decodeFloat16Bits_x3C00, decodeFloat16Bits_zero,
    decodeFloat16Bits_x7C00, decodeFloat16Bits_x7C01⟩
  intro bits
  have h8000 : ((2 : ℕ) ^ 1 - 1) <<< 15 = 0x8000 := by
    norm_num [Nat.shiftLeft_eq]
  have h7c00 : ((2 : ℕ) ^ 5 - 1) <<< 10 = 0x7c00 := by
    norm_num [Nat.shiftLeft_eq]
  have hs := and_mask_shr bits 1 15
  have he := and_mask_shr bits 5 10
  have hc := and_mask bits 10
  rw [h8000] at hs
  rw [h7c00] at he
  norm_num at hc
  simp only [decodeFloat16Bits, ieeeBinary16, hs, he, hc]
  norm_num
  split_ifs <;> try rfl
  all_goals (congr 1; ring)

/-- C2: for every valid family-1 length-prefixed frame — 4-byte little-endian
base timestamp, declared count byte `N`, and at least `N` fixed-size
sub-frames — `parseData` returns exactly `N` samples whose `i`-th time is
`(baseMillis + i*10)/1000` seconds. -/
theorem c2_frame_count_and_times (v : List Nat)
    (h5 : 5 ≤ v.length)
    (hlen : 5 + 14 * getUint8 v 4 ≤ v.length) :
    ∃ fs, NoraxonInterface.parseData v = some fs ∧
      fs.length = getUint8 v 4 ∧
      ∀ i, i < getUint8 v 4 →
        (fs.getD i default).time = ((getUint32LE v 0 : ℚ) + i * 10) / 1000 := by
  simp only [NoraxonInterface.parseData]
  rw [if_neg (by omega), if_neg (by omega)]
  refine ⟨_, rfl, by simp, ?_⟩
  intro i hi
  have hilt : i < (List.range (getUint8 v 4)).length := by simpa using hi
  rw [List.getD_eq_getElem _ _ (by simpa using hi)]
  simp

/-- Witness for C2 at a concrete one-sample frame. -/
theorem c2_witness :
    ∃ fs, NoraxonInterface.parseData c2frame = some fs ∧
      fs.length = getUint8 c2frame 4 ∧
      ∀ i, i < getUint8 c2frame 4 →
        (fs.getD i default).time = ((getUint32LE c2frame 0 : ℚ) + i * 10) / 1000 :=
  c2_frame_count_and_times c2frame (by decide) (by decide)

/-- Counterexample for C3: the 19-byte frame `c3frame` declares one sub-frame
and is accepted (so a sub-frame occupies 14 bytes, not 20 — under the claim a
one-sample frame would need at least 25 bytes), and its first acceleration
component decodes to the raw half-float value 1, not `9.80665 * 1` m/s². -/
theorem c3_counterexample :
    c3frame.length = 19 ∧ 19 < 5 + 1 * 20 ∧
    NoraxonInterface.parseData c3frame = some
      [{ time := 0
         accelerometer := { x := .finite 1, y := .finite 0, z := .finite 0 }
         quaternion := { x := .finite 0, y := .finite 0, z := .finite 0,
                         w := .finite 0 } }] ∧
    FloatVal.finite 1 ≠ FloatVal.finite (9.80665 * 1) := by
  refine ⟨by decide, by decide, ?_, by norm_num⟩
  have g5 : getFloat16 c3frame 5 = FloatVal.finite 1 := by
    rw [getFloat16, show getUint16BE c3frame 5 = 0x3C00 from by decide]
    exact decodeFloat16Bits_x3C00
  have g7 : getFloat16 c3frame 7 = FloatVal.finite 0 := by
    rw [getFloat16, show getUint16BE c3frame 7 = 0 from by decide]
    exact decodeFloat16Bits_zero
  have g9 : getFloat16 c3frame 9 = FloatVal.finite 0 := by
    rw [getFloat16, show getUint16BE c3frame 9 = 0 from by decide]
    exact decodeFloat16Bits_zero
  have g11 : getFloat16 c3frame 11 = FloatVal.finite 0 := by
    rw [getFloat16, show getUint16BE c3frame 11 = 0 from by decide]
    exact decodeFloat16Bits_zero
  have g13 : getFloat16 c3frame 13 = FloatVal.finite 0 := by
    rw [getFloat16, show getUint16BE c3frame 13 = 0 from by decide]
    exact decodeFloat16Bits_zero
  have g15 : getFloat16 c3frame 15 = FloatVal.finite 0 := by
    rw [getFloat16, show getUint16BE c3frame 15 = 0 from by decide]
    exact decodeFloat16Bits_zero
  have g17 : getFloat16 c3frame 17 = FloatVal.finite 0 := by
    rw [getFloat16, show getUint16BE c3frame 17 = 0 from by decide]
    exact decodeFloat16Bits_zero
  have hN : getUint8 c3frame 4 = 1 := by decide
  have hU : getUint32LE c3frame 0 = 0 := by decide
  simp only [NoraxonInterface.parseData, hN, hU]
  rw [if_neg (by decide), if_neg (by decide)]
  simp only [List.range_succ, List.range_zero, List.nil_append, List.map_cons,
    List.map_nil]
  norm_num [g5, g7, g9, g11, g13, g15, g17]

/-- C3 (amended): each of the declared sub-frames of a valid family-1 frame
is 14 bytes and decodes as seven big-endian half-precision floats: three raw
acceleration components (no gravity scaling), then four quaternion components
mapped to `(x, y, z, w)` in wire order (not 16-bit integers, no `−32767`
divisor), and no angular-rate block. -/
theorem c3_amended_subframe_layout (v : List Nat)
    (h5 : 5 ≤ v.length)
    (hlen : 5 + 14 * getUint8 v 4 ≤ v.length) :
    ∃ fs, NoraxonInterface.parseData v = some fs ∧
      fs.length = getUint8 v 4 ∧
      ∀ i, i < getUint8 v 4 →
        fs.getD i default =
          { time := ((getUint32LE v 0 : ℚ) + i * 10) / 1000
            accelerometer :=
              { x := getFloat16 v (5 + i * 14)
                y := getFloat16 v (5 + i * 14 + 2)
                z := getFloat16 v (5 + i * 14 + 4) }
            quaternion :=
              { x := getFloat16 v (5 + i * 14 + 6)
                y := getFloat16 v (5 + i * 14 + 8)
                z := getFloat16 v (5 + i * 14 + 10)
                w := getFloat16 v (5 + i * 14 + 12) } } := by
  simp only [NoraxonInterface.parseData]
  rw [if_neg (by omega), if_neg (by omega)]
  refine ⟨_, rfl, by simp, ?_⟩
  intro i hi
  rw [List.getD_eq_getElem _ _ (by simpa using hi)]
  simp

/-- Witness for C3 (amended) at a concrete one-sample frame. -/
theorem c3_amended_witness :
    ∃ fs, NoraxonInterface.parseData c3frame = some fs ∧
      fs.length = getUint8 c3frame 4 ∧
      ∀ i, i < getUint8 c3frame 4 →
        fs.getD i default =
          { time := ((getUint32LE c3frame 0 : ℚ) + i * 10) / 1000
            accelerometer :=
              { x := getFloat16 c3frame (5 + i * 14)
                y := getFloat16 c3frame (5 + i * 14 + 2)
                z := getFloat16 c3frame (5 + i * 14 + 4) }
            quaternion :=
              { x := getFloat16 c3frame (5 + i * 14 + 6)
                y := getFloat16 c3frame (5 + i * 14 + 8)
                z := getFloat16 c3frame (5 + i * 14 + 10)
                w := getFloat16 c3frame (5 + i * 14 + 12) } } :=
  c3_amended_subframe_layout c3frame (by decide) (by decide)

/-- Counterexample for C1: in a connected, streaming Qsense session with a
pending correlated command, the link-loss handler clears only `_connected`:
it emits no settlement event (the returned action list is empty) and leaves
the command slot pending, so the pending promise is not settled by link loss. -/
theorem c1_counterexample :
    c1session.streaming = true ∧
    c1session.commandPending = true ∧
    QsenseSensor.handleDisconnectStep c1session =
      ({ c1session with _connected := false }, []) ∧
    ({ c1session with _connected := false } : QsenseSensor.Session).commandPending
      = true := by
  refine ⟨by decide, by decide, by decide, by decide⟩

/-- C1 (amended): for all three vendor families, after the link-loss handler
runs the session reports `connected = false` and `streaming = false`; however
the handler performs no promise settlement — the correlated-command slot
(and the Noraxon start-streaming promise) is left exactly as it was, and is
only rejected later if a new command supersedes it. -/
theorem c1_amended_disconnect_flags (sq : QsenseSensor.Session)
    (sy : YostSensor.Session) (sn : NoraxonSensor.Session) :
    ((QsenseSensor.handleDisconnectStep sq).1.connected = false ∧
     (QsenseSensor.handleDisconnectStep sq).1.streaming = false ∧
     (QsenseSensor.handleDisconnectStep sq).1.commandPending = sq.commandPending ∧
     (QsenseSensor.handleDisconnectStep sq).2 = []) ∧
    ((YostSensor.handleDisconnectStep sy).1.connected = false ∧
     (YostSensor.handleDisconnectStep sy).1.streaming = false ∧
     (YostSensor.handleDisconnectStep sy).1.commandPending = sy.commandPending ∧
     (YostSensor.handleDisconnectStep sy).2 = []) ∧
    ((NoraxonSensor.handleDisconnectStep sn).1.connected = false ∧
     (NoraxonSensor.handleDisconnectStep sn).1.streaming = false ∧
     (NoraxonSensor.handleDisconnectStep sn).1.startPending = sn.startPending ∧
     (NoraxonSensor.handleDisconnectStep sn).2 = []) := by
  simp [QsenseSensor.handleDisconnectStep, QsenseSensor.Session.connected,
    QsenseSensor.Session.streaming, YostSensor.handleDisconnectStep,
    YostSensor.Session.connected, YostSensor.Session.streaming,
    NoraxonSensor.handleDisconnectStep, NoraxonSensor.Session.connected,
    NoraxonSensor.Session.streaming]

/-- C7: issuing a correlated command (Qsense `getValue`/`setValue`, Yost
`sendCommand`) while a previous command is pending first rejects the previous
promise with the "Superseded" signal and only then writes the new request
bytes — the returned action list is exactly `[reject, write]` — and the
session keeps a single pending command afterwards. -/
theorem c7_supersede_rejects_before_write (sq : QsenseSensor.Session)
    (sy : YostSensor.Session) (a l : Nat) (value : List Nat) (cmd prop : String)
    (hq : sq.commandPending = true) (hy : sy.commandPending = true) :
    (QsenseSensor.getValueStep sq a l).2 =
      [.rejectCmd "Superseded", .write (QsenseInterface.createReadPacket a l)] ∧
    (QsenseSensor.getValueStep sq a l).1.commandPending = true ∧
    (QsenseSensor.setValueStep sq a value).2 =
      [.rejectCmd "Superseded", .write (QsenseInterface.createDataPacket a value)] ∧
    (QsenseSensor.setValueStep sq a value).1.commandPending = true ∧
    (YostSensor.sendCommandStep sy cmd prop).2 =
      [.rejectCmd "Superseded", .writeStr cmd] ∧
    (YostSensor.sendCommandStep sy cmd prop).1.commandPending = true := by
  simp [QsenseSensor.getValueStep, QsenseSensor.setValueStep,
    YostSensor.sendCommandStep, hq, hy]

/-- Witness for C7 at concrete sessions and arguments. -/
theorem c7_witness :
    (QsenseSensor.getValueStep c7qsession 0 4).2 =
      [.rejectCmd "Superseded", .write (QsenseInterface.createReadPacket 0 4)] ∧
    (QsenseSensor.getValueStep c7qsession 0 4).1.commandPending = true ∧
    (QsenseSensor.setValueStep c7qsession 0 [1]).2 =
      [.rejectCmd "Superseded", .write (QsenseInterface.createDataPacket 0 [1])] ∧
    (QsenseSensor.setValueStep c7qsession 0 [1]).1.commandPending = true ∧
    (YostSensor.sendCommandStep c7ysession ":86\n" "").2 =
      [.rejectCmd "Superseded", .writeStr ":86\n"] ∧
    (YostSensor.sendCommandStep c7ysession ":86\n" "").1.commandPending = true :=
  c7_supersede_rejects_before_write c7qsession c7ysession 0 4 [1] ":86\n" ""
    (by decide) (by decide)

/-- Counterexample for C8: with the start-streaming promise pending, a
truncated family-1 frame (5 bytes declaring 5 sub-frames, which `parseData`
drops) still resolves the promise — `_streaming` flips to true — while no
decoded sample batch is delivered to the sink (the output list is empty). -/
theorem c8_counterexample :
    c8session.startPending = true ∧
    NoraxonInterface.parseData c8truncFrame = none ∧
    NoraxonSensor.handleDataStep c8session c8truncFrame =
      ({ _connected := true, gattConnected := true, _streaming := true,
         startPending := false }, []) := by
  refine ⟨by decide, by decide, by decide⟩

/-- C8 (amended): the family-1 `startStreaming()` promise is not resolved by
the start-command write itself — the write step leaves `_streaming` unchanged
and installs the pending promise, emitting only the start-byte write — and
`_streaming` becomes true exactly when a subsequent notification frame is
handled while the promise is pending.  (The resolving frame need not decode
to a delivered sample; any notification resolves the promise.) -/
theorem c8_amended_resolution_on_first_frame (s t : NoraxonSensor.Session)
    (value : List Nat) :
    (NoraxonSensor.startStreamingStep s).1._streaming = s._streaming ∧
    (NoraxonSensor.startStreamingStep s).1.startPending = true ∧
    (NoraxonSensor.startStreamingStep s).2 =
      [.write [NoraxonInterface.BLE_MOTION_CMD_START]] ∧
    (NoraxonSensor.handleDataStep t value).1._streaming =
      (t._streaming || t.startPending) ∧
    (NoraxonSensor.handleDataStep t value).1.startPending = false := by
  cases h : NoraxonInterface.parseData value <;>
    cases hp : t.startPending <;>
      simp [NoraxonSensor.startStreamingStep, NoraxonSensor.handleDataStep, h, hp]

/-- Counterexample for C9: on fully disconnected sessions of all three
families, `startStreaming()` (its first suspension-free phase for Yost)
still emits exactly the vendor start-command writes — no "not connected"
precondition error is raised and the write is not skipped. -/
theorem c9_counterexample :
    c9qsession.connected = false ∧
    (QsenseSensor.startStreamingStep c9qsession).2 =
      [.write (QsenseInterface.createDataPacket
          QsenseInterface.MemoryAddress.DataMode [QsenseInterface.DataMode.Optimized]),
       .write QsenseInterface.createStreamPacket] ∧
    c9ysession.connected = false ∧
    (YostSensor.startStreamingFirstStep c9ysession).2 =
      [.writeStr "!stream_hz=100\n"] ∧
    c9nsession.connected = false ∧
    (NoraxonSensor.startStreamingStep c9nsession).2 =
      [.write [NoraxonInterface.BLE_MOTION_CMD_START]] := by
  refine ⟨by decide, by decide, by decide, by decide, by decide, by decide⟩

/-- C9 (amended): no family's `startStreaming()` checks `connected`; for
every session state — connected or not — its action sequence consists solely
of the vendor start-command writes (preceded for Yost by the supersede
rejection when a command is pending), never a typed precondition error. -/
theorem c9_amended_no_connected_check (sq : QsenseSensor.Session)
    (sy : YostSensor.Session) (sn : NoraxonSensor.Session)
    (hy : sy.commandPending = false) :
    (QsenseSensor.startStreamingStep sq).2 =
      [.write (QsenseInterface.createDataPacket
          QsenseInterface.MemoryAddress.DataMode [QsenseInterface.DataMode.Optimized]),
       .write QsenseInterface.createStreamPacket] ∧
    (YostSensor.startStreamingFirstStep sy).2 = [.writeStr "!stream_hz=100\n"] ∧
    (NoraxonSensor.startStreamingStep sn).2 =
      [.write [NoraxonInterface.BLE_MOTION_CMD_START]] := by
  simp [QsenseSensor.startStreamingStep, YostSensor.startStreamingFirstStep,
    YostSensor.sendCommandStep, NoraxonSensor.startStreamingStep, hy]

/-- Witness for C9 (amended) at concrete (connected) sessions. -/
theorem c9_amended_witness :
    (QsenseSensor.startStreamingStep c7qsession).2 =
      [.write (QsenseInterface.createDataPacket
          QsenseInterface.MemoryAddress.DataMode [QsenseInterface.DataMode.Optimized]),
       .write QsenseInterface.createStreamPacket] ∧
    (YostSensor.startStreamingFirstStep c9ysession).2 =
      [.writeStr "!stream_hz=100\n"] ∧
    (NoraxonSensor.startStreamingStep c9nsession).2 =
      [.write [NoraxonInterface.BLE_MOTION_CMD_START]] :=
  c9_amended_no_connected_check c7qsession c9ysession c9nsession (by decide)

/-- C5 (amended): for every control-memory address that `parseControlMemory`
decodes (every entry of the address table except `UiAnimation`) and every
value fitting the field's size, encoding a write with `createDataPacket` and
running `parsePacket` on the resulting packet reports exactly that field with
the original value recovered: bit-for-bit for the numeric fields and for the
MacAddress/DeviceName byte slices (which the source renders as a hex string
and decoded text), by re-encoding for Timesync on every byte except the
reserved value `0x80` (which collapses to the disabled report), and as the
"9 DoF"/"6 DoF" tag for AlgorithmSelection values 0 and 1 (larger values
collapse onto 1).  Writes to `UiAnimation` are reported with no field at all.
Each field is reported only when its `[address, address + size)` span is
contained in the packet's covered range (inclusive containment test). -/
theorem c5_amended_control_roundtrip :
    (∀ v : Nat, v < 2 ^ 32 →
      QsenseInterface.parsePacket (QsenseInterface.createDataPacket QsenseInterface.MemoryAddress.WhoAmI (leBytes 4 v)) =
        .ok (.control { whoAmI := some v })) ∧
    (∀ v : Nat, v < 2 ^ 64 →
      QsenseInterface.parsePacket (QsenseInterface.createDataPacket QsenseInterface.MemoryAddress.Id (leBytes 8 v)) =
        .ok (.control { id := some v })) ∧
    (∀ bs : List Nat, bs.length = 6 →
      QsenseInterface.parsePacket (QsenseInterface.createDataPacket QsenseInterface.MemoryAddress.MacAddress bs) =
        .ok (.control { macAddress := some bs })) ∧
    (∀ v : Nat, v < 2 ^ 32 →
      QsenseInterface.parsePacket (QsenseInterface.createDataPacket QsenseInterface.MemoryAddress.Version (leBytes 4 v)) =
        .ok (.control { version := some v })) ∧
    (∀ v : Nat,
      QsenseInterface.parsePacket (QsenseInterface.createDataPacket QsenseInterface.MemoryAddress.Battery [v]) =
        .ok (.control { battery := some v })) ∧
    (∀ v : Nat,
      QsenseInterface.parsePacket (QsenseInterface.createDataPacket QsenseInterface.MemoryAddress.MotionLevel [v]) =
        .ok (.control { motionLevel := some v })) ∧
    (∀ v : Nat,
      QsenseInterface.parsePacket (QsenseInterface.createDataPacket QsenseInterface.MemoryAddress.OffsetCompensated [v]) =
        .ok (.control { offsetCompensated := some v })) ∧
    (∀ v : Nat,
      QsenseInterface.parsePacket (QsenseInterface.createDataPacket QsenseInterface.MemoryAddress.MagneticFieldMapped [v]) =
        .ok (.control { magneticFieldMapped := some v })) ∧
    (∀ v : Nat,
      QsenseInterface.parsePacket (QsenseInterface.createDataPacket QsenseInterface.MemoryAddress.MagneticFieldProgress [v]) =
        .ok (.control { magneticFieldProgress := some v })) ∧
    (∀ v : Nat,
      QsenseInterface.parsePacket (QsenseInterface.createDataPacket QsenseInterface.MemoryAddress.ConnectionInterval [v]) =
        .ok (.control { connectionInterval := some v })) ∧
    (∀ v : Nat,
      QsenseInterface.parsePacket (QsenseInterface.createDataPacket QsenseInterface.MemoryAddress.SyncStatus [v]) =
        .ok (.control { syncStatus := some v })) ∧
    (∀ v : Nat, v < 2 ^ 32 →
      QsenseInterface.parsePacket (QsenseInterface.createDataPacket QsenseInterface.MemoryAddress.Ticks100Hz (leBytes 4 v)) =
        .ok (.control { ticks100Hz := some v })) ∧
    (∀ v : Nat, v < 2 ^ 32 →
      QsenseInterface.parsePacket (QsenseInterface.createDataPacket QsenseInterface.MemoryAddress.Pin (leBytes 4 v)) =
        .ok (.control { pin := some v })) ∧
    (∀ v : Nat, v < 2 ^ 32 →
      QsenseInterface.parsePacket (QsenseInterface.createDataPacket QsenseInterface.MemoryAddress.Time (leBytes 4 v)) =
        .ok (.control { time := some v })) ∧
    (∀ v : Nat, v < 2 ^ 16 →
      QsenseInterface.parsePacket (QsenseInterface.createDataPacket QsenseInterface.MemoryAddress.Annot (leBytes 2 v)) =
        .ok (.control { annot := some v })) ∧
    (∀ v : Nat, v < 2 ^ 16 →
      QsenseInterface.parsePacket (QsenseInterface.createDataPacket QsenseInterface.MemoryAddress.DeviceState (leBytes 2 v)) =
        .ok (.control { deviceState := some v })) ∧
    (∀ bs : List Nat, bs.length = 12 →
      QsenseInterface.parsePacket (QsenseInterface.createDataPacket QsenseInterface.MemoryAddress.DeviceName bs) =
        .ok (.control { deviceName := some bs })) ∧
    (∀ v : Nat,
      QsenseInterface.parsePacket (QsenseInterface.createDataPacket QsenseInterface.MemoryAddress.DataMode [v]) =
        .ok (.control { dataMode := some v })) ∧
    (∀ v : Nat, v < 256 → v ≠ 128 →
      ∃ ti, QsenseInterface.parsePacket (QsenseInterface.createDataPacket QsenseInterface.MemoryAddress.Timesync [v]) =
        .ok (.control { timesync := some ti }) ∧ QsenseInterface.timesyncReencode ti = v) ∧
    (∀ v : Nat, v < 2 →
      QsenseInterface.parsePacket (QsenseInterface.createDataPacket QsenseInterface.MemoryAddress.AlgorithmSelection [v]) =
        .ok (.control
          { algorithmSelection := some (if v = 0 then "9 DoF" else "6 DoF") }) ∧
      (if v = 0 then 0 else 1) = v) ∧
    (∀ v : Nat,
      QsenseInterface.parsePacket (QsenseInterface.createDataPacket QsenseInterface.MemoryAddress.UiAnimation [v]) =
        .ok (.control {})) ∧
    (∀ a b : Nat,
      QsenseInterface.parsePacket (QsenseInterface.createDataPacket QsenseInterface.MemoryAddress.UiAnimation [a, b]) =
        .ok (.control {})) ∧
    (∀ a b c d : Nat,
      QsenseInterface.parsePacket (QsenseInterface.createDataPacket QsenseInterface.MemoryAddress.UiAnimation [a, b, c, d]) =
        .ok (.control {})) ∧
    (∀ d a l, (QsenseInterface.parseControlMemory d a l).whoAmI.isSome ↔
      a ≤ QsenseInterface.MemoryAddress.WhoAmI ∧ QsenseInterface.MemoryAddress.WhoAmI + 4 ≤ a + l) ∧
    (∀ d a l, (QsenseInterface.parseControlMemory d a l).id.isSome ↔
      a ≤ QsenseInterface.MemoryAddress.Id ∧ QsenseInterface.MemoryAddress.Id + 8 ≤ a + l) ∧
    (∀ d a l, (QsenseInterface.parseControlMemory d a l).macAddress.isSome ↔
      a ≤ QsenseInterface.MemoryAddress.MacAddress ∧ QsenseInterface.MemoryAddress.MacAddress + 6 ≤ a + l) ∧
    (∀ d a l, (QsenseInterface.parseControlMemory d a l).version.isSome ↔
      a ≤ QsenseInterface.MemoryAddress.Version ∧ QsenseInterface.MemoryAddress.Version + 4 ≤ a + l) ∧
    (∀ d a l, (QsenseInterface.parseControlMemory d a l).battery.isSome ↔
      a ≤ QsenseInterface.MemoryAddress.Battery ∧ QsenseInterface.MemoryAddress.Battery + 1 ≤ a + l) ∧
    (∀ d a l, (QsenseInterface.parseControlMemory d a l).motionLevel.isSome ↔
      a ≤ QsenseInterface.MemoryAddress.MotionLevel ∧ QsenseInterface.MemoryAddress.MotionLevel + 1 ≤ a + l) ∧
    (∀ d a l, (QsenseInterface.parseControlMemory d a l).offsetCompensated.isSome ↔
      a ≤ QsenseInterface.MemoryAddress.OffsetCompensated ∧ QsenseInterface.MemoryAddress.OffsetCompensated + 1 ≤ a + l) ∧
    (∀ d a l, (QsenseInterface.parseControlMemory d a l).magneticFieldMapped.isSome ↔
      a ≤ QsenseInterface.MemoryAddress.MagneticFieldMapped ∧ QsenseInterface.MemoryAddress.MagneticFieldMapped + 1 ≤ a + l) ∧
    (∀ d a l, (QsenseInterface.parseControlMemory d a l).magneticFieldProgress.isSome ↔
      a ≤ QsenseInterface.MemoryAddress.MagneticFieldProgress ∧ QsenseInterface.MemoryAddress.MagneticFieldProgress + 1 ≤ a + l) ∧
    (∀ d a l, (QsenseInterface.parseControlMemory d a l).connectionInterval.isSome ↔
      a ≤ QsenseInterface.MemoryAddress.ConnectionInterval ∧ QsenseInterface.MemoryAddress.ConnectionInterval + 1 ≤ a + l) ∧
    (∀ d a l, (QsenseInterface.parseControlMemory d a l).syncStatus.isSome ↔
      a ≤ QsenseInterface.MemoryAddress.SyncStatus ∧ QsenseInterface.MemoryAddress.SyncStatus + 1 ≤ a + l) ∧
    (∀ d a l, (QsenseInterface.parseControlMemory d a l).ticks100Hz.isSome ↔
      a ≤ QsenseInterface.MemoryAddress.Ticks100Hz ∧ QsenseInterface.MemoryAddress.Ticks100Hz + 4 ≤ a + l) ∧
    (∀ d a l, (QsenseInterface.parseControlMemory d a l).pin.isSome ↔
      a ≤ QsenseInterface.MemoryAddress.Pin ∧ QsenseInterface.MemoryAddress.Pin + 4 ≤ a + l) ∧
    (∀ d a l, (QsenseInterface.parseControlMemory d a l).time.isSome ↔
      a ≤ QsenseInterface.MemoryAddress.Time ∧ QsenseInterface.MemoryAddress.Time + 4 ≤ a + l) ∧
    (∀ d a l, (QsenseInterface.parseControlMemory d a l).annot.isSome ↔
      a ≤ QsenseInterface.MemoryAddress.Annot ∧ QsenseInterface.MemoryAddress.Annot + 2 ≤ a + l) ∧
    (∀ d a l, (QsenseInterface.parseControlMemory d a l).deviceState.isSome ↔
      a ≤ QsenseInterface.MemoryAddress.DeviceState ∧ QsenseInterface.MemoryAddress.DeviceState + 2 ≤ a + l) ∧
    (∀ d a l, (QsenseInterface.parseControlMemory d a l).deviceName.isSome ↔
      a ≤ QsenseInterface.MemoryAddress.DeviceName ∧ QsenseInterface.MemoryAddress.DeviceName + 12 ≤ a + l) ∧
    (∀ d a l, (QsenseInterface.parseControlMemory d a l).dataMode.isSome ↔
      a ≤ QsenseInterface.MemoryAddress.DataMode ∧ QsenseInterface.MemoryAddress.DataMode + 1 ≤ a + l) ∧
    (∀ d a l, (QsenseInterface.parseControlMemory d a l).timesync.isSome ↔
      a ≤ QsenseInterface.MemoryAddress.Timesync ∧ QsenseInterface.MemoryAddress.Timesync + 1 ≤ a + l) ∧
    (∀ d a l, (QsenseInterface.parseControlMemory d a l).algorithmSelection.isSome ↔
      a ≤ QsenseInterface.MemoryAddress.AlgorithmSelection ∧ QsenseInterface.MemoryAddress.AlgorithmSelection + 1 ≤ a + l) := by
  refine ⟨?_, ?_, ?_, ?_, ?_, ?_, ?_, ?_, ?_, ?_, ?_, ?_, ?_, ?_, ?_, ?_, ?_, ?_, ?_, ?_, ?_, ?_, ?_, ?_, ?_, ?_, ?_, ?_, ?_, ?_, ?_, ?_, ?_, ?_, ?_, ?_, ?_, ?_, ?_, ?_, ?_, ?_, ?_⟩
  · intro v hv
    rw [parsePacket_createDataPacket _ _ (by simp), leBytes_length,
      qsField_whoAmI v hv]
  · intro v hv
    rw [parsePacket_createDataPacket _ _ (by simp), leBytes_length,
      qsField_id v hv]
  · intro bs hbs
    rw [parsePacket_createDataPacket _ _ (by simp [hbs]), hbs,
      qsField_macAddress bs hbs]
  · intro v hv
    rw [parsePacket_createDataPacket _ _ (by simp), leBytes_length,
      qsField_version v hv]
  · intro v
    rw [parsePacket_createDataPacket _ _ (by simp),
      show ([v] : List Nat).length = 1 from rfl, qsField_battery v]
  · intro v
    rw [parsePacket_createDataPacket _ _ (by simp),
      show ([v] : List Nat).length = 1 from rfl, qsField_motionLevel v]
  · intro v
    rw [parsePacket_createDataPacket _ _ (by simp),
      show ([v] : List Nat).length = 1 from rfl, qsField_offsetCompensated v]
  · intro v
    rw [parsePacket_createDataPacket _ _ (by simp),
      show ([v] : List Nat).length = 1 from rfl, qsField_magneticFieldMapped v]
  · intro v
    rw [parsePacket_createDataPacket _ _ (by simp),
      show ([v] : List Nat).length = 1 from rfl, qsField_magneticFieldProgress v]
  · intro v
    rw [parsePacket_createDataPacket _ _ (by simp),
      show ([v] : List Nat).length = 1 from rfl, qsField_connectionInterval v]
  · intro v
    rw [parsePacket_createDataPacket _ _ (by simp),
      show ([v] : List Nat).length = 1 from rfl, qsField_syncStatus v]
  · intro v hv
    rw [parsePacket_createDataPacket _ _ (by simp), leBytes_length,
      qsField_ticks100Hz v hv]
  · intro v hv
    rw [parsePacket_createDataPacket _ _ (by simp), leBytes_length,
      qsField_pin v hv]
  · intro v hv
    rw [parsePacket_createDataPacket _ _ (by simp), leBytes_length,
      qsField_time v hv]
  · intro v hv
    rw [parsePacket_createDataPacket _ _ (by simp), leBytes_length,
      qsField_annot v hv]
  · intro v hv
    rw [parsePacket_createDataPacket _ _ (by simp), leBytes_length,
      qsField_deviceState v hv]
  · intro bs hbs
    rw [parsePacket_createDataPacket _ _ (by simp [hbs]), hbs,
      qsField_deviceName bs hbs]
  · intro v
    rw [parsePacket_createDataPacket _ _ (by simp),
      show ([v] : List Nat).length = 1 from rfl, qsField_dataMode v]
  · intro v hv hv8
    obtain ⟨ti, hti, hre⟩ := qsField_timesync v hv hv8
    refine ⟨ti, ?_, hre⟩
    rw [parsePacket_createDataPacket _ _ (by simp),
      show ([v] : List Nat).length = 1 from rfl, hti]
  · intro v hv
    obtain ⟨h1, h2⟩ := qsField_algorithmSelection v hv
    refine ⟨?_, h2⟩
    rw [parsePacket_createDataPacket _ _ (by simp),
      show ([v] : List Nat).length = 1 from rfl, h1]
  · intro v
    rw [parsePacket_createDataPacket _ _ (by simp),
      show ([v] : List Nat).length = 1 from rfl, qsField_uiAnimation_one]
  · intro a b
    rw [parsePacket_createDataPacket _ _ (by simp),
      show ([a, b] : List Nat).length = 2 from rfl, qsField_uiAnimation_two]
  · intro a b c d
    rw [parsePacket_createDataPacket _ _ (by simp),
      show ([a, b, c, d] : List Nat).length = 4 from rfl, qsField_uiAnimation_four]
  · intro d a l
    exact isSome_ite_some
  · intro d a l
    exact isSome_ite_some
  · intro d a l
    exact isSome_ite_some
  · intro d a l
    exact isSome_ite_some
  · intro d a l
    exact isSome_ite_some
  · intro d a l
    exact isSome_ite_some
  · intro d a l
    exact isSome_ite_some
  · intro d a l
    exact isSome_ite_some
  · intro d a l
    exact isSome_ite_some
  · intro d a l
    exact isSome_ite_some
  · intro d a l
    exact isSome_ite_some
  · intro d a l
    exact isSome_ite_some
  · intro d a l
    exact isSome_ite_some
  · intro d a l
    exact isSome_ite_some
  · intro d a l
    exact isSome_ite_some
  · intro d a l
    exact isSome_ite_some
  · intro d a l
    exact isSome_ite_some
  · intro d a l
    exact isSome_ite_some
  · intro d a l
    exact isSome_ite_ite
  · intro d a l
    exact isSome_ite_some

/-- Witness for C5 (amended): the WhoAmI round-trip at a concrete value. -/
theorem c5_witness :
    QsenseInterface.parsePacket (QsenseInterface.createDataPacket
      QsenseInterface.MemoryAddress.WhoAmI (leBytes 4 0x12345678)) =
      .ok (.control { whoAmI := some 0x12345678 }) :=
  c5_amended_control_roundtrip.1 0x12345678 (by norm_num)

/-- Counterexample for C5: writing the byte 5 to the documented address
`UiAnimation` and parsing the resulting packet reports no field at all — the
control record is empty, so the written value is not recovered for this
address. -/
theorem c5_counterexample :
    QsenseInterface.parsePacket (QsenseInterface.createDataPacket
      QsenseInterface.MemoryAddress.UiAnimation [5]) = .ok (.control {}) := by
  rw [parsePacket_createDataPacket _ _ (by simp),
    show ([5] : List Nat).length = 1 from rfl, qsField_uiAnimation_one]


/-! ### Optimized-mode stream layout helpers (family 2) -/

/-- A frame with header byte `0x33` (mode Optimized, buffering 3) dispatches
to `parseOptimizedPacket` with the header-selected scale factors. -/
theorem optimized_layout (array : List Nat)
    (hhdr : getUint8 array 0 = 0x33) :
    QsenseInterface.parseStreamData array =
      { timestampMs := (getInt32LE array 1 : ℚ) * 1000 + (getInt16LE array 5 : ℚ) * 1.25
        battery := ((getUint8 array 7 >>> 3 : ℕ) : ℚ) * 6.25
        data := some (.optimized (QsenseInterface.parseOptimizedPacket array 3
          (QsenseInterface.accScaleFactors.getD ((getUint8 array 9 &&& 0x30) >>> 4) 0)
          (QsenseInterface.gyrScaleFactors.getD ((getUint8 array 9 &&& 0x0e) >>> 1) 0))) } := by
  have hm : getUint8 array 0 &&& 0x0f = 3 := by
    rw [hhdr]
    decide
  have hb : getUint8 array 0 >>> 4 = 3 := by
    rw [hhdr]
    decide
  simp only [QsenseInterface.parseStreamData, hm, hb]
  norm_num

/-- Quaternion entry `j` of an Optimized packet with buffering 3: four
little-endian int16s at offset `10 + 8j`, each divided by 32767. -/
theorem po_quat (array : List Nat) (a g : ℚ) (j : Nat) (hj : j < 3) :
    (QsenseInterface.parseOptimizedPacket array 3 a g).quaternions.getD j default =
      { w := (getInt16LE array (10 + j * 8) : ℚ) / 32767
        x := (getInt16LE array (10 + j * 8 + 2) : ℚ) / 32767
        y := (getInt16LE array (10 + j * 8 + 4) : ℚ) / 32767
        z := (getInt16LE array (10 + j * 8 + 6) : ℚ) / 32767 } := by
  rw [List.getD_eq_getElem _ _ (by simp [QsenseInterface.parseOptimizedPacket, hj])]
  simp [QsenseInterface.parseOptimizedPacket]

/-- Accelerometer entry `j` of an Optimized packet with buffering 3: three
int16s at offset `90 + 12j` (after the `8 * (10 - 3)` skip), scaled. -/
theorem po_acc (array : List Nat) (a g : ℚ) (j : Nat) (hj : j < 3) :
    (QsenseInterface.parseOptimizedPacket array 3 a g).accelerometers.getD j default =
      { x := (getInt16LE array (90 + j * 12) : ℚ) * a
        y := (getInt16LE array (90 + j * 12 + 2) : ℚ) * a
        z := (getInt16LE array (90 + j * 12 + 4) : ℚ) * a } := by
  rw [List.getD_eq_getElem _ _ (by simp [QsenseInterface.parseOptimizedPacket, hj])]
  simp [QsenseInterface.parseOptimizedPacket, QsenseInterface.raw9Dof]

/-- Gyroscope entry `j` of an Optimized packet with buffering 3: three int16s
at offset `90 + 12j + 6`, scaled. -/
theorem po_gyro (array : List Nat) (a g : ℚ) (j : Nat) (hj : j < 3) :
    (QsenseInterface.parseOptimizedPacket array 3 a g).gyroscopes.getD j default =
      { x := (getInt16LE array (90 + j * 12 + 6) : ℚ) * g
        y := (getInt16LE array (90 + j * 12 + 8) : ℚ) * g
        z := (getInt16LE array (90 + j * 12 + 10) : ℚ) * g } := by
  rw [List.getD_eq_getElem _ _ (by simp [QsenseInterface.parseOptimizedPacket, hj])]
  simp [QsenseInterface.parseOptimizedPacket, QsenseInterface.raw9Dof]

/-- C4 (amended): a 237-byte family-2 stream frame whose header mode nibble
is Optimized (3) and buffering nibble 3 decodes to exactly 3 quaternion
entries — each component a little-endian int16 divided by 32767.0, read from
offset 10 (the header length) — then skips `8 * (10 - buffering)` bytes of
unused quaternion slots (raw data starts at byte 90), then to exactly 3 raw
entries whose accelerometer components are int16s scaled by the factor the
2-bit accelerometer range field `(b9 & 0x30) >> 4` selects, and whose
gyroscope components are int16s scaled by the factor the 3-bit (not 2-bit)
gyroscope range field `(b9 & 0x0e) >> 1` selects. -/
theorem c4_amended_optimized_frame (array : List Nat)
    (_hlen : array.length = 237)
    (hhdr : getUint8 array 0 = 0x33) :
    ∃ p, (QsenseInterface.parseStreamData array).data = some (.optimized p) ∧
      p.quaternions.length = 3 ∧
      p.accelerometers.length = 3 ∧
      p.gyroscopes.length = 3 ∧
      (∀ j, j < 3 → p.quaternions.getD j default =
        { w := (getInt16LE array (10 + j * 8) : ℚ) / 32767
          x := (getInt16LE array (10 + j * 8 + 2) : ℚ) / 32767
          y := (getInt16LE array (10 + j * 8 + 4) : ℚ) / 32767
          z := (getInt16LE array (10 + j * 8 + 6) : ℚ) / 32767 }) ∧
      (90 : ℕ) = QsenseInterface.HEADER_LENGTH + 8 * 3 + 8 * (10 - 3) ∧
      (∀ j, j < 3 → p.accelerometers.getD j default =
        { x := (getInt16LE array (90 + j * 12) : ℚ) *
            QsenseInterface.accScaleFactors.getD ((getUint8 array 9 &&& 0x30) >>> 4) 0
          y := (getInt16LE array (90 + j * 12 + 2) : ℚ) *
            QsenseInterface.accScaleFactors.getD ((getUint8 array 9 &&& 0x30) >>> 4) 0
          z := (getInt16LE array (90 + j * 12 + 4) : ℚ) *
            QsenseInterface.accScaleFactors.getD ((getUint8 array 9 &&& 0x30) >>> 4) 0 }) ∧
      (∀ j, j < 3 → p.gyroscopes.getD j default =
        { x := (getInt16LE array (90 + j * 12 + 6) : ℚ) *
            QsenseInterface.gyrScaleFactors.getD ((getUint8 array 9 &&& 0x0e) >>> 1) 0
          y := (getInt16LE array (90 + j * 12 + 8) : ℚ) *
            QsenseInterface.gyrScaleFactors.getD ((getUint8 array 9 &&& 0x0e) >>> 1) 0
          z := (getInt16LE array (90 + j * 12 + 10) : ℚ) *
            QsenseInterface.gyrScaleFactors.getD ((getUint8 array 9 &&& 0x0e) >>> 1) 0 }) := by
  refine ⟨QsenseInterface.parseOptimizedPacket array 3
    (QsenseInterface.accScaleFactors.getD ((getUint8 array 9 &&& 0x30) >>> 4) 0)
    (QsenseInterface.gyrScaleFactors.getD ((getUint8 array 9 &&& 0x0e) >>> 1) 0),
    ?_, ?_, ?_, ?_, ?_, ?_, ?_, ?_⟩
  · rw [optimized_layout array hhdr]
  · simp [QsenseInterface.parseOptimizedPacket]
  · simp [QsenseInterface.parseOptimizedPacket]
  · simp [QsenseInterface.parseOptimizedPacket]
  · intro j hj
    exact po_quat array _ _ j hj
  · norm_num
  · intro j hj
    exact po_acc array _ _ j hj
  · intro j hj
    exact po_gyro array _ _ j hj

set_option maxRecDepth 4000 in
/-- Witness for C4 (amended) at the concrete all-zero Optimized frame. -/
theorem c4_witness :
    ∃ p, (QsenseInterface.parseStreamData c4frame).data = some (.optimized p) ∧
      p.quaternions.length = 3 ∧
      p.accelerometers.length = 3 ∧
      p.gyroscopes.length = 3 ∧
      (∀ j, j < 3 → p.quaternions.getD j default =
        { w := (getInt16LE c4frame (10 + j * 8) : ℚ) / 32767
          x := (getInt16LE c4frame (10 + j * 8 + 2) : ℚ) / 32767
          y := (getInt16LE c4frame (10 + j * 8 + 4) : ℚ) / 32767
          z := (getInt16LE c4frame (10 + j * 8 + 6) : ℚ) / 32767 }) ∧
      (90 : ℕ) = QsenseInterface.HEADER_LENGTH + 8 * 3 + 8 * (10 - 3) ∧
      (∀ j, j < 3 → p.accelerometers.getD j default =
        { x := (getInt16LE c4frame (90 + j * 12) : ℚ) *
            QsenseInterface.accScaleFactors.getD ((getUint8 c4frame 9 &&& 0x30) >>> 4) 0
          y := (getInt16LE c4frame (90 + j * 12 + 2) : ℚ) *
            QsenseInterface.accScaleFactors.getD ((getUint8 c4frame 9 &&& 0x30) >>> 4) 0
          z := (getInt16LE c4frame (90 + j * 12 + 4) : ℚ) *
            QsenseInterface.accScaleFactors.getD ((getUint8 c4frame 9 &&& 0x30) >>> 4) 0 }) ∧
      (∀ j, j < 3 → p.gyroscopes.getD j default =
        { x := (getInt16LE c4frame (90 + j * 12 + 6) : ℚ) *
            QsenseInterface.gyrScaleFactors.getD ((getUint8 c4frame 9 &&& 0x0e) >>> 1) 0
          y := (getInt16LE c4frame (90 + j * 12 + 8) : ℚ) *
            QsenseInterface.gyrScaleFactors.getD ((getUint8 c4frame 9 &&& 0x0e) >>> 1) 0
          z := (getInt16LE c4frame (90 + j * 12 + 10) : ℚ) *
            QsenseInterface.gyrScaleFactors.getD ((getUint8 c4frame 9 &&& 0x0e) >>> 1) 0 }) :=
  c4_amended_optimized_frame c4frame (by decide) (by decide)

set_option maxRecDepth 4000 in
/-- Counterexample for C4: in the concrete frame `c4gframe` the gyroscope
range index is `(0x08 & 0x0e) >> 1 = 4` — a 3-bit value — selecting the scale
factor 0.035, which no 2-bit index (0..3) selects; the first decoded
gyroscope entry is `(1 * 0.035, 0, 0)`. -/
theorem c4_counterexample :
    (QsenseInterface.optimizedPayload
        (QsenseInterface.parseStreamData c4gframe)).gyroscopes.getD 0 default =
      { x := 0.035, y := 0, z := 0 } ∧
    (getUint8 c4gframe 9 &&& 0x0e) >>> 1 = 4 ∧
    QsenseInterface.gyrScaleFactors.getD 4 0 = 0.035 ∧
    QsenseInterface.gyrScaleFactors.getD 0 0 ≠ (0.035 : ℚ) ∧
    QsenseInterface.gyrScaleFactors.getD 1 0 ≠ (0.035 : ℚ) ∧
    QsenseInterface.gyrScaleFactors.getD 2 0 ≠ (0.035 : ℚ) ∧
    QsenseInterface.gyrScaleFactors.getD 3 0 ≠ (0.035 : ℚ) := by
  refine ⟨?_, by decide, by norm_num [QsenseInterface.gyrScaleFactors],
    by norm_num [QsenseInterface.gyrScaleFactors],
    by norm_num [QsenseInterface.gyrScaleFactors],
    by norm_num [QsenseInterface.gyrScaleFactors],
    by norm_num [QsenseInterface.gyrScaleFactors]⟩
  rw [optimized_layout c4gframe (by decide)]
  simp only [QsenseInterface.optimizedPayload]
  rw [po_gyro _ _ _ 0 (by norm_num)]
  have h96 : getInt16LE c4gframe 96 = 1 := by
    rw [getInt16LE, show getUint16LE c4gframe 96 = 1 from by decide]
    decide
  have h98 : getInt16LE c4gframe 98 = 0 := by
    rw [getInt16LE, show getUint16LE c4gframe 98 = 0 from by decide]
    decide
  have h100 : getInt16LE c4gframe 100 = 0 := by
    rw [getInt16LE, show getUint16LE c4gframe 100 = 0 from by decide]
    decide
  have hidx : (getUint8 c4gframe 9 &&& 0x0e) >>> 1 = 4 := by decide
  rw [hidx]
  norm_num [h96, h98, h100, QsenseInterface.gyrScaleFactors]

/-! ### CRLF reassembly lemmas (family 3) -/

namespace YostSensor

theorem splitCRLF_ne_nil (l : List Char) : splitCRLF l ≠ [] := by
  induction l using splitCRLF.induct with
  | case1 => simp [splitCRLF]
  | case2 rest ih => simp [splitCRLF]
  | case3 c rest h2 ih => simp_all [splitCRLF]
  | case4 c rest h2 s ss heq ih => simp_all [splitCRLF]

theorem splitCRLF_of_crlfFree (l : List Char) (h : crlfFree l = true) :
    splitCRLF l = [l] := by
  induction l using crlfFree.induct with
  | case1 => rfl
  | case2 r => simp [crlfFree] at h
  | case3 c r h2 ih =>
    have hr : crlfFree r = true := by simp_all [crlfFree]
    have hih := ih hr
    rw [splitCRLF.eq_def]
    split
    next heq => simp at heq
    next rest1 heq =>
      cases r with
      | nil => simp at heq
      | cons d r' =>
        simp only [List.cons.injEq] at heq
        exact (h2 r' heq.1 (by rw [heq.2.1])).elim
    next c2 rest2 h3 heq =>
      injection heq with hc hr2
      subst hc
      subst hr2
      rw [hih]

theorem splitCRLF_append_crlf (l rest : List Char) (h : crlfFree l = true) :
    splitCRLF (l ++ '\r' :: '\n' :: rest) = l :: splitCRLF rest := by
  induction l using crlfFree.induct with
  | case1 => rfl
  | case2 r => simp [crlfFree] at h
  | case3 c r h2 ih =>
    have hr : crlfFree r = true := by simp_all [crlfFree]
    have hih := ih hr
    simp only [List.cons_append]
    rw [splitCRLF.eq_def]
    split
    next heq => simp at heq
    next rest1 heq =>
      cases r with
      | nil => simp at heq
      | cons d r' =>
        simp only [List.cons_append, List.cons.injEq] at heq
        exact (h2 r' heq.1 (by rw [heq.2.1])).elim
    next c2 rest2 h3 heq =>
      injection heq with hc hr2
      subst hc
      subst hr2
      rw [hih]

theorem crlfFree_cons_tail (c : Char) (x : List Char)
    (h : crlfFree (c :: x) = true) : crlfFree x = true := by
  rw [crlfFree.eq_def] at h
  revert h
  split
  next heq => simp at heq
  next rest1 heq => intro h; exact absurd h (by simp)
  next c2 rest2 h3 heq =>
    injection heq with hc hr2
    subst hr2
    exact id

theorem crlfFree_append_cr (l : List Char) (h : crlfFree l = true) :
    crlfFree (l ++ ['\r']) = true := by
  induction l using crlfFree.induct with
  | case1 => rfl
  | case2 r => simp [crlfFree] at h
  | case3 c r h2 ih =>
    have hr : crlfFree r = true := by simp_all [crlfFree]
    have hih := ih hr
    simp only [List.cons_append]
    rw [crlfFree.eq_def]
    split
    next heq => simp at heq
    next rest1 heq =>
      cases r with
      | nil => simp at heq
      | cons d r' =>
        simp only [List.cons_append, List.cons.injEq] at heq
        exact (h2 r' heq.1 (by rw [heq.2.1])).elim
    next c2 rest2 h3 heq =>
      injection heq with hc hr2
      subst hr2
      exact hih

theorem crlfFree_of_append_left (a b : List Char)
    (h : crlfFree (a ++ b) = true) : crlfFree a = true := by
  induction a using crlfFree.induct with
  | case1 => rfl
  | case2 r =>
    simp only [List.cons_append] at h
    simp [crlfFree] at h
  | case3 c r h2 ih =>
    simp only [List.cons_append] at h
    have hr : crlfFree (r ++ b) = true := crlfFree_cons_tail _ _ h
    rw [crlfFree.eq_def]
    split
    next heq => simp at heq
    next rest1 heq =>
      simp only [List.cons.injEq] at heq
      exact (h2 rest1 heq.1 heq.2).elim
    next c2 rest2 h3 heq =>
      injection heq with hc hr2
      subst hr2
      exact ih hr

theorem crlfFree_append_crlf_false (l r : List Char) :
    crlfFree (l ++ '\r' :: '\n' :: r) = false := by
  induction l using crlfFree.induct with
  | case1 => rfl
  | case2 rest => simp [crlfFree]
  | case3 c rest h2 ih =>
    simp only [List.cons_append]
    rw [crlfFree.eq_def]
    split
    next heq => simp at heq
    next rest1 heq => rfl
    next c2 rest2 h3 heq =>
      injection heq with hc hr2
      subst hr2
      exact ih

end YostSensor


namespace YostSensor

theorem joinBuffer_bufOf (p c : List Char) : joinBuffer (bufOf p) c = p ++ c := by
  by_cases hp : p = [] <;> simp [joinBuffer, bufOf, hp]

theorem step_no_crlf (p c : List Char) (hq : crlfFree (p ++ c) = true) :
    handleDataPure (bufOf p) c = (bufOf (p ++ c), []) := by
  rw [handleDataPure, joinBuffer_bufOf, splitCRLF_of_crlfFree _ hq]
  by_cases h : (p ++ c) = [] <;> simp [bufOf, h]

theorem step_complete (p c line : List Char) (hfree : crlfFree line = true)
    (hq : p ++ c = line ++ ['\r', '\n']) :
    handleDataPure (bufOf p) c = (none, [line]) := by
  rw [handleDataPure, joinBuffer_bufOf, hq,
    show line ++ ['\r', '\n'] = line ++ '\r' :: '\n' :: [] from rfl,
    splitCRLF_append_crlf line [] hfree]
  simp [splitCRLF]

theorem runHandleData_empty (cs : List (List Char)) (h : cs.flatten = []) :
    runHandleData none cs = (none, []) := by
  induction cs with
  | nil => rfl
  | cons c cs ih =>
    rw [List.flatten_cons, List.append_eq_nil] at h
    obtain ⟨hc, hcs⟩ := h
    subst hc
    have hstep : handleDataPure none [] = (none, []) := rfl
    simp only [runHandleData, hstep, ih hcs]
    rfl

theorem complete_of_not_crlfFree (line q t : List Char)
    (hfree : crlfFree line = true)
    (hnq : ¬ crlfFree q = true)
    (heq : q ++ t = line ++ ['\r', '\n']) :
    q = line ++ ['\r', '\n'] ∧ t = [] := by
  have hlen : q.length + t.length = line.length + 2 := by
    have h := congrArg List.length heq
    simpa using h
  have htake : q = (line ++ ['\r', '\n']).take q.length := by
    rw [← heq, List.take_left]
  rcases lt_trichotomy q.length (line.length + 1) with hl | hl | hl
  · exfalso
    have hle : q.length ≤ line.length := by omega
    rw [List.take_append_of_le_length hle] at htake
    have hfr : crlfFree q = true := by
      rw [htake]
      exact crlfFree_of_append_left _ (line.drop q.length)
        (by rw [List.take_append_drop]; exact hfree)
    exact hnq hfr
  · exfalso
    have hq1 : q = line ++ ['\r'] := by
      rw [htake, hl, show line.length + 1 = line.length + 1 from rfl,
        List.take_append]
      rfl
    rw [hq1] at hnq
    exact hnq (crlfFree_append_cr line hfree)
  · have h2 : q.length = line.length + 2 := by
      have : q.length ≤ line.length + 2 := by omega
      omega
    have ht : t = [] := by
      have h0 : t.length = 0 := by omega
      exact List.length_eq_zero.mp h0
    subst ht
    rw [List.append_nil] at heq
    exact ⟨heq, rfl⟩

theorem runHandleData_reassembles (line : List Char)
    (hfree : crlfFree line = true) :
    ∀ (chunks : List (List Char)) (p : List Char), crlfFree p = true →
      p ++ chunks.flatten = line ++ ['\r', '\n'] →
      runHandleData (bufOf p) chunks = (none, [line]) := by
  intro chunks
  induction chunks with
  | nil =>
    intro p hp hjoin
    exfalso
    rw [List.flatten_nil, List.append_nil] at hjoin
    subst hjoin
    rw [crlfFree_append_crlf_false] at hp
    exact Bool.false_ne_true hp
  | cons c cs ih =>
    intro p hp hjoin
    rw [List.flatten_cons, ← List.append_assoc] at hjoin
    by_cases hq : crlfFree (p ++ c) = true
    · have hstep := step_no_crlf p c hq
      simp only [runHandleData, hstep]
      rw [ih (p ++ c) hq hjoin]
      rfl
    · obtain ⟨hq2, ht⟩ :=
        complete_of_not_crlfFree line (p ++ c) cs.flatten hfree hq hjoin
      have hstep := step_complete p c line hfree hq2
      simp only [runHandleData, hstep]
      rw [runHandleData_empty cs ht]
      rfl

end YostSensor

/-- C6: any split of a single CRLF-terminated text line into consecutive
notification chunks dispatches exactly the one message `line`, identical to
the unsplit delivery, and leaves the held-over buffer empty. -/
theorem c6_chunked_reassembly (line : List Char) (chunks : List (List Char))
    (hfree : YostSensor.crlfFree line = true)
    (hjoin : chunks.flatten = line ++ ['\r', '\n']) :
    YostSensor.runHandleData none chunks = (none, [line]) := by
  have h := YostSensor.runHandleData_reassembles line hfree chunks [] rfl
    (by simpa using hjoin)
  simpa [bufOf] using h

/-- Witness for C6: the line "ab" split into three chunks, the CRLF itself
split across the last two. -/
theorem c6_witness :
    YostSensor.runHandleData none [['a'], ['b', '\r'], ['\n']] =
      (none, [['a', 'b']]) :=
  c6_chunked_reassembly ['a', 'b'] [['a'], ['b', '\r'], ['\n']]
    (by decide) (by decide)

end SensorDemo
